import Mathlib

/-!
# Resource prefetch predictor tables, request queue store, snippets service,
# plugin content settings and alternate protocols

A shallow embedding of five parts of the repository:

* the resource prefetch prediction store exercised by
  `chrome/browser/predictors/resource_prefetch_predictor_tables_unittest.cc`;
  the unit test and its helper declarations are embedded from the source, while
  the tables class itself (`resource_prefetch_predictor_tables.{h,cc}`) and the
  predictor database are not among the source files, and the definitions that
  stand for them are marked `Modelled from the spec:`;
* `components/offline_pages/background/request_queue_in_memory_store.cc`;
* `components/ntp_snippets/ntp_snippets_service.cc`;
* `chrome/browser/plugins/plugin_utils.cc`;
* `net/http/http_server_properties.cc`.

All definitions come first, then the lemmas and the statements about them.
-/

namespace predictors

/-! ## Data model -/

/-- Modelled from the spec: the `content::ResourceType` enumeration (its header
is missing).  The spec lists the categories Stylesheet, Script, Image, Font and
Other; the constructors carry the names the unit test uses for them, with
`RESOURCE_TYPE_LAST_TYPE` standing for "Other". -/
inductive ResourceType where
  | RESOURCE_TYPE_STYLESHEET
  | RESOURCE_TYPE_SCRIPT
  | RESOURCE_TYPE_IMAGE
  | RESOURCE_TYPE_FONT_RESOURCE
  | RESOURCE_TYPE_LAST_TYPE
  deriving DecidableEq, Repr

/-- Modelled from the spec: the `net::RequestPriority` enumeration (its header
is missing), "Lowest..Highest". -/
inductive RequestPriority where
  | IDLE
  | LOWEST
  | LOW
  | MEDIUM
  | HIGHEST
  deriving DecidableEq, Repr

/-- The two keyspaces of the store. -/
inductive PrefetchKeyType where
  | PREFETCH_KEY_TYPE_HOST
  | PREFETCH_KEY_TYPE_URL
  deriving DecidableEq, Repr

/-- Modelled from the spec: the `ResourceData` record (its class is missing),
with the fields of the spec's ResourceRecord in the order in which
`CreateResourceData` of `resource_prefetch_predictor_test_util.h` takes them.
The counts are non-negative integers; the average load position, a `double` in
the source, is an exact rational here. -/
structure ResourceData where
  resource_url : String
  resource_type : ResourceType
  number_of_hits : Nat
  number_of_misses : Nat
  consecutive_misses : Nat
  average_position : ℚ
  priority : RequestPriority
  has_validators : Bool
  always_revalidate : Bool
  deriving DecidableEq

/-- The `CreateResourceData` helper declared in
`resource_prefetch_predictor_test_util.h`: it fills a record field by field. -/
def CreateResourceData (resource_url : String) (resource_type : ResourceType)
    (number_of_hits number_of_misses consecutive_misses : Nat)
    (average_position : ℚ) (priority : RequestPriority)
    (has_validators always_revalidate : Bool) : ResourceData :=
  { resource_url := resource_url
    resource_type := resource_type
    number_of_hits := number_of_hits
    number_of_misses := number_of_misses
    consecutive_misses := consecutive_misses
    average_position := average_position
    priority := priority
    has_validators := has_validators
    always_revalidate := always_revalidate }

/-- Modelled from the spec: the `PrefetchData` aggregate (its class is
missing): key type, primary key, last-visit timestamp (the internal value of a
`base::Time`) and the ordered resource list.  The unit test builds one with
`PrefetchData(key_type, primary_key)` and then assigns `last_visit` and pushes
resources. -/
structure PrefetchData where
  key_type : PrefetchKeyType
  primary_key : String
  last_visit : Int
  resources : List ResourceData
  deriving DecidableEq

/-- A `PrefetchDataMap` is a `std::map<std::string, PrefetchData>`: a list of
key/value entries that is searched by key. -/
abbrev PrefetchDataMap := List (String × PrefetchData)

namespace PrefetchDataMap

/-- Lookup by key, as `std::map::find`. -/
def find (m : PrefetchDataMap) (key : String) : Option PrefetchData :=
  List.lookup key m

/-- Insertion as `std::map::insert`: an entry whose key is already present is
left alone. -/
def insert (m : PrefetchDataMap) (p : String × PrefetchData) : PrefetchDataMap :=
  match m.find p.1 with
  | some _ => m
  | none => m ++ [p]

/-- Removal of the entry stored under `key`, if any. -/
def erase (m : PrefetchDataMap) (key : String) : PrefetchDataMap :=
  m.filter (fun p => p.1 != key)

end PrefetchDataMap

/-! ## Scoring -/

/-- Modelled from the spec: the category test of the scoring formula (the
function `ComputeScore` of the missing `resource_prefetch_predictor_tables.cc`
is described in the spec's section 4.1).  Stylesheets, scripts and fonts block
rendering. -/
def is_blocking_category : ResourceType → Bool
  | .RESOURCE_TYPE_STYLESHEET => true
  | .RESOURCE_TYPE_SCRIPT => true
  | .RESOURCE_TYPE_FONT_RESOURCE => true
  | .RESOURCE_TYPE_IMAGE => false
  | .RESOURCE_TYPE_LAST_TYPE => false

/-- Modelled from the spec: `ResourcePrefetchPredictorTables::ComputeScore`
(missing from the source files), by the formula of section 4.1:
`base = is_blocking_category(category) ? 100.0 : 0.0` and
`score = base + 100.0 - average_load_position`, in exact rational arithmetic. -/
def ComputeScore (data : ResourceData) : ℚ :=
  let base : ℚ := if is_blocking_category data.resource_type then 100 else 0
  base + 100 - data.average_position

/-! ## The store -/

/-- Modelled from the spec: the state of `ResourcePrefetchPredictorTables`
(the class is missing from the source files): the configured maximum of
entries of a map (section 4.2) and the two independent maps of section 3,
`url_data` and `host_data`, which the spec's section 6 persists as two
tables. -/
structure ResourcePrefetchPredictorTables where
  max_entries : Nat
  url_table : PrefetchDataMap
  host_table : PrefetchDataMap
  deriving DecidableEq

namespace ResourcePrefetchPredictorTables

/-- Modelled from the spec: `GetAllData` of the missing tables class, "returns
a full copy-out snapshot of both maps". -/
def GetAllData (tables : ResourcePrefetchPredictorTables) :
    PrefetchDataMap × PrefetchDataMap :=
  (tables.url_table, tables.host_table)

/-- The oldest `last_visit` among the aggregates of a map. -/
def oldestLastVisit : PrefetchDataMap → Option Int
  | [] => none
  | p :: m =>
    match oldestLastVisit m with
    | none => some p.2.last_visit
    | some t => some (min p.2.last_visit t)

/-- Modelled from the spec: one eviction of `EnforceCapacity`, of "the
aggregate(s) with the oldest `last_visit`": the first entry that has the oldest
`last_visit` is removed. -/
def EvictOldest (m : PrefetchDataMap) : PrefetchDataMap :=
  match oldestLastVisit m with
  | none => m
  | some t => m.eraseP (fun p => p.2.last_visit == t)

/-- The given number of evictions, one after the other. -/
def EvictOldestTimes : Nat → PrefetchDataMap → PrefetchDataMap
  | 0, m => m
  | n + 1, m => EvictOldestTimes n (EvictOldest m)

/-- Modelled from the spec: `EnforceCapacity / prune` of section 4.2 (missing
from the source files): "if a map's entry count exceeds a configured maximum,
evict the aggregate(s) with the oldest `last_visit` until back at capacity".
Every eviction removes one entry, so the entries in excess are as many as the
evictions. -/
def EnforceCapacity (max_entries : Nat) (m : PrefetchDataMap) : PrefetchDataMap :=
  EvictOldestTimes (m.length - max_entries) m

/-- Modelled from the spec: the per-keyspace step of `UpdateData` (missing from
the source files).  An aggregate with an empty primary key is skipped; "if an
existing aggregate shares the primary key, replace it wholesale; otherwise
insert new", and the capacity is enforced "after any insert". -/
def UpdateDataHelper (max_entries : Nat) (data : PrefetchData) (m : PrefetchDataMap) :
    PrefetchDataMap :=
  if data.primary_key = "" then m
  else
    match m.find data.primary_key with
    | some _ => m.map (fun p => if p.1 == data.primary_key then (data.primary_key, data) else p)
    | none => EnforceCapacity max_entries (m ++ [(data.primary_key, data)])

/-- Modelled from the spec: `UpdateData(url_aggregate, host_aggregate)` of the
missing tables class, which upserts both aggregates; `EnforceCapacity` "is
invoked implicitly as part of `UpdateData`". -/
def UpdateData (url_data host_data : PrefetchData)
    (tables : ResourcePrefetchPredictorTables) : ResourcePrefetchPredictorTables :=
  { tables with
    url_table := UpdateDataHelper tables.max_entries url_data tables.url_table
    host_table := UpdateDataHelper tables.max_entries host_data tables.host_table }

/-- Modelled from the spec: `DeleteData(urls, hosts)` of the missing tables
class, "removes all aggregates whose primary key matches any entry in the
respective sequence": the keys are removed one after the other. -/
def DeleteData (urls hosts : List String)
    (tables : ResourcePrefetchPredictorTables) : ResourcePrefetchPredictorTables :=
  { tables with
    url_table := urls.foldl PrefetchDataMap.erase tables.url_table
    host_table := hosts.foldl PrefetchDataMap.erase tables.host_table }

/-- Modelled from the spec: `DeleteSingleDataPoint(key, key_type)` of the
missing tables class, "removes exactly one aggregate from the specified map;
no-op if absent". -/
def DeleteSingleDataPoint (key : String) (key_type : PrefetchKeyType)
    (tables : ResourcePrefetchPredictorTables) : ResourcePrefetchPredictorTables :=
  match key_type with
  | .PREFETCH_KEY_TYPE_URL => { tables with url_table := tables.url_table.erase key }
  | .PREFETCH_KEY_TYPE_HOST => { tables with host_table := tables.host_table.erase key }

/-- Modelled from the spec: `DeleteAllData()` of the missing tables class,
"clears both maps entirely". -/
def DeleteAllData (tables : ResourcePrefetchPredictorTables) :
    ResourcePrefetchPredictorTables :=
  { tables with url_table := [], host_table := [] }

end ResourcePrefetchPredictorTables

/-! ## Schema versioning -/

/-- Modelled from the spec: the persisted store behind a `PredictorDatabase`
(the class is missing from the source files): the metadata row with the schema
version, absent in a store that was never initialised, and the two tables. -/
structure PredictorDatabase where
  version : Option Int
  resource_prefetch_tables : ResourcePrefetchPredictorTables
  deriving DecidableEq

namespace PredictorDatabase

/-- A store that was never opened, for tables configured with `max_entries`:
no metadata row, no data. -/
def fresh (max_entries : Nat) : PredictorDatabase :=
  { version := none
    resource_prefetch_tables := { max_entries := max_entries, url_table := [], host_table := [] } }

/-- Modelled from the spec: `GetDatabaseVersion` (missing from the source
files) reads the stored schema version. -/
def GetDatabaseVersion (db : PredictorDatabase) : Option Int :=
  db.version

/-- Modelled from the spec: `SetDatabaseVersion` (missing from the source
files) stamps the metadata row; the unit test asserts that it reports
success. -/
def SetDatabaseVersion (db : PredictorDatabase) (version : Int) : Bool × PredictorDatabase :=
  (true, { db with version := some version })

/-- Modelled from the spec: what opening the store does (section 4.3; the
opening code is missing from the source files), for the compiled-in version
`kDatabaseVersion`, a constant of the missing header: "read stored version; if
absent, initialize fresh schema and stamp current version; if present but
older/newer than the current compiled-in version, wipe all persisted data and
reinitialize at the current version". -/
def Open (kDatabaseVersion : Int) (db : PredictorDatabase) : PredictorDatabase :=
  match db.version with
  | none =>
      { version := some kDatabaseVersion
        resource_prefetch_tables :=
          { db.resource_prefetch_tables with url_table := [], host_table := [] } }
  | some stored =>
      if stored = kDatabaseVersion then db
      else
        { version := some kDatabaseVersion
          resource_prefetch_tables :=
            { db.resource_prefetch_tables with url_table := [], host_table := [] } }

end PredictorDatabase

/-! ## The unit test

`resource_prefetch_predictor_tables_unittest.cc`, embedded from the source.  A
test function returns `true` when every expectation in it holds. -/

/-- The fixture `ResourcePrefetchPredictorTablesTest`: the database `db_`
(whose tables the member `tables_` points at) and the two expected maps. -/
structure ResourcePrefetchPredictorTablesTest where
  db_ : PredictorDatabase
  test_url_data_ : PrefetchDataMap
  test_host_data_ : PrefetchDataMap
  deriving DecidableEq

namespace ResourcePrefetchPredictorTablesTest

open ResourceType RequestPriority PrefetchKeyType

/-- The member `tables_`, set from `db_->resource_prefetch_tables()`. -/
def tables_ (t : ResourcePrefetchPredictorTablesTest) : ResourcePrefetchPredictorTables :=
  t.db_.resource_prefetch_tables

/-- Runs a tables operation through `tables_`, storing the result in `db_`. -/
def onTables (t : ResourcePrefetchPredictorTablesTest)
    (op : ResourcePrefetchPredictorTables → ResourcePrefetchPredictorTables) :
    ResourcePrefetchPredictorTablesTest :=
  { t with db_ := { t.db_ with resource_prefetch_tables := op t.db_.resource_prefetch_tables } }

/-- The set insertion of `resources_seen.insert(resource)`. -/
def seenInsert (resources_seen : List String) (resource : String) : List String :=
  if resources_seen.contains resource then resources_seen else resource :: resources_seen

/-- One round of the loop of `TestResourcesAreEqual` over `rhs`: the state is
the conjunction of the expectations so far and the set `resources_seen`. -/
def TestResourcesAreEqualStep (lhs : List ResourceData)
    (acc : Bool × List String) (rhs_resource : ResourceData) : Bool × List String :=
  let resource := rhs_resource.resource_url
  let not_seen_before := !(acc.2.contains resource)
  let resources_seen :=
    if lhs.any (fun lhs_resource => decide (lhs_resource = rhs_resource)) then
      seenInsert acc.2 resource
    else acc.2
  (acc.1 && not_seen_before && resources_seen.contains resource, resources_seen)

/-- `TestResourcesAreEqual(lhs, rhs)`: equal sizes, every resource of `rhs` has
an equal resource in `lhs` and a URL not seen before, and as many URLs were
seen as `lhs` has resources. -/
def TestResourcesAreEqual (lhs rhs : List ResourceData) : Bool :=
  let sizes := decide (lhs.length = rhs.length)
  let result := rhs.foldl (TestResourcesAreEqualStep lhs) (true, [])
  sizes && result.1 && decide (lhs.length = result.2.length)

/-- `TestPrefetchDataAreEqual(lhs, rhs)`: equal sizes, and every entry of `rhs`
is found in `lhs` with equal resources, "although the resources can be in
different order". -/
def TestPrefetchDataAreEqual (lhs rhs : PrefetchDataMap) : Bool :=
  decide (lhs.length = rhs.length) &&
    rhs.all (fun p =>
      match lhs.find p.1 with
      | none => false
      | some lhs_it => TestResourcesAreEqual lhs_it.resources p.2.resources)

/-- `AddKey(m, key)`: copies the entry stored under `key` in `test_url_data_`,
or else in `test_host_data_`, into `m`; `none` when the key is in neither (the
assertion fails). -/
def AddKey (t : ResourcePrefetchPredictorTablesTest) (m : PrefetchDataMap) (key : String) :
    Option PrefetchDataMap :=
  match t.test_url_data_.find key with
  | some it => some (m.insert (key, it))
  | none =>
    match t.test_host_data_.find key with
    | some it => some (m.insert (key, it))
    | none => none

/-- The URL aggregate `google` of `InitializeSampleData`. -/
def sample_google : PrefetchData :=
  { key_type := PREFETCH_KEY_TYPE_URL
    primary_key := "http://www.google.com"
    last_visit := 1
    resources :=
      [ CreateResourceData "http://www.google.com/style.css" RESOURCE_TYPE_STYLESHEET 5 2 1 1.1
          MEDIUM false false,
        CreateResourceData "http://www.google.com/script.js" RESOURCE_TYPE_SCRIPT 4 0 1 2.1
          MEDIUM false false,
        CreateResourceData "http://www.google.com/image.png" RESOURCE_TYPE_IMAGE 6 3 0 2.2
          MEDIUM false false,
        CreateResourceData "http://www.google.com/a.font" RESOURCE_TYPE_LAST_TYPE 2 0 0 5.1
          MEDIUM false false,
        CreateResourceData "http://www.resources.google.com/script.js" RESOURCE_TYPE_SCRIPT 11 0 0
          8.5 MEDIUM false false ] }

/-- The URL aggregate `reddit` of `InitializeSampleData`. -/
def sample_reddit : PrefetchData :=
  { key_type := PREFETCH_KEY_TYPE_URL
    primary_key := "http://www.reddit.com"
    last_visit := 2
    resources :=
      [ CreateResourceData "http://reddit-resource.com/script1.js" RESOURCE_TYPE_SCRIPT 4 0 1 1.0
          MEDIUM false false,
        CreateResourceData "http://reddit-resource.com/script2.js" RESOURCE_TYPE_SCRIPT 2 0 0 2.1
          MEDIUM false false ] }

/-- The URL aggregate `yahoo` of `InitializeSampleData`. -/
def sample_yahoo_url : PrefetchData :=
  { key_type := PREFETCH_KEY_TYPE_URL
    primary_key := "http://www.yahoo.com"
    last_visit := 3
    resources :=
      [ CreateResourceData "http://www.google.com/image.png" RESOURCE_TYPE_IMAGE 20 1 0 10.0
          MEDIUM false false ] }

/-- The host aggregate `facebook` of `InitializeSampleData`. -/
def sample_facebook : PrefetchData :=
  { key_type := PREFETCH_KEY_TYPE_HOST
    primary_key := "www.facebook.com"
    last_visit := 4
    resources :=
      [ CreateResourceData "http://www.facebook.com/style.css" RESOURCE_TYPE_STYLESHEET 5 2 1 1.1
          MEDIUM false false,
        CreateResourceData "http://www.facebook.com/script.js" RESOURCE_TYPE_SCRIPT 4 0 1 2.1
          MEDIUM false false,
        CreateResourceData "http://www.facebook.com/image.png" RESOURCE_TYPE_IMAGE 6 3 0 2.2
          MEDIUM false false,
        CreateResourceData "http://www.facebook.com/a.font" RESOURCE_TYPE_LAST_TYPE 2 0 0 5.1
          MEDIUM false false,
        CreateResourceData "http://www.resources.facebook.com/script.js" RESOURCE_TYPE_SCRIPT 11 0
          0 8.5 MEDIUM false false ] }

/-- The host aggregate `yahoo` of `InitializeSampleData`. -/
def sample_yahoo_host : PrefetchData :=
  { key_type := PREFETCH_KEY_TYPE_HOST
    primary_key := "www.yahoo.com"
    last_visit := 5
    resources :=
      [ CreateResourceData "http://www.google.com/image.png" RESOURCE_TYPE_IMAGE 20 1 0 10.0
          MEDIUM false false ] }

/-- The sentinel `empty_host_data` of `InitializeSampleData`. -/
def empty_host_data : PrefetchData :=
  { key_type := PREFETCH_KEY_TYPE_HOST, primary_key := "", last_visit := 0, resources := [] }

/-- The sentinel `empty_url_data` of `InitializeSampleData`. -/
def empty_url_data : PrefetchData :=
  { key_type := PREFETCH_KEY_TYPE_URL, primary_key := "", last_visit := 0, resources := [] }

/-- `InitializeSampleData()`: fills `test_url_data_` and `test_host_data_` and
writes the five aggregates with five calls of `UpdateData`, each with an empty
aggregate for the other keyspace. -/
def InitializeSampleData (t : ResourcePrefetchPredictorTablesTest) :
    ResourcePrefetchPredictorTablesTest :=
  let test_url_data :=
    ((([] : PrefetchDataMap).insert ("http://www.google.com", sample_google)).insert
      ("http://www.reddit.com", sample_reddit)).insert ("http://www.yahoo.com", sample_yahoo_url)
  let t := { t with test_url_data_ := test_url_data }
  let t := t.onTables (ResourcePrefetchPredictorTables.UpdateData sample_google empty_host_data)
  let t := t.onTables (ResourcePrefetchPredictorTables.UpdateData sample_reddit empty_host_data)
  let t := t.onTables (ResourcePrefetchPredictorTables.UpdateData sample_yahoo_url empty_host_data)
  let test_host_data :=
    (([] : PrefetchDataMap).insert ("www.facebook.com", sample_facebook)).insert
      ("www.yahoo.com", sample_yahoo_host)
  let t := { t with test_host_data_ := test_host_data }
  let t := t.onTables (ResourcePrefetchPredictorTables.UpdateData empty_url_data sample_facebook)
  t.onTables (ResourcePrefetchPredictorTables.UpdateData empty_url_data sample_yahoo_host)

/-- The constructor of the fixture: a `PredictorDatabase` is opened on the
profile, whose persisted store is `profile`. -/
def create (kDatabaseVersion : Int) (profile : PredictorDatabase) :
    ResourcePrefetchPredictorTablesTest :=
  { db_ := PredictorDatabase.Open kDatabaseVersion profile
    test_url_data_ := []
    test_host_data_ := [] }

/-- `SetUp()`: `DeleteAllData()` and then `InitializeSampleData()`. -/
def SetUp (t : ResourcePrefetchPredictorTablesTest) : ResourcePrefetchPredictorTablesTest :=
  InitializeSampleData (t.onTables ResourcePrefetchPredictorTables.DeleteAllData)

/-- `ReopenDatabase()`: a new `PredictorDatabase` is opened on the same
profile, that is, on what the old one persisted. -/
def ReopenDatabase (kDatabaseVersion : Int) (t : ResourcePrefetchPredictorTablesTest) :
    ResourcePrefetchPredictorTablesTest :=
  { t with db_ := PredictorDatabase.Open kDatabaseVersion t.db_ }

/-- `ResourcePrefetchPredictorTablesReopenTest::SetUp()`: "Write data to the
table, and then reopen the db."  `TearDown()` releases the handles and leaves
the persisted store as it is. -/
def ReopenTest_SetUp (kDatabaseVersion : Int) (t : ResourcePrefetchPredictorTablesTest) :
    ResourcePrefetchPredictorTablesTest :=
  ReopenDatabase kDatabaseVersion (SetUp t)

/-- `TestGetAllData()`: what `GetAllData` returns is equal to the expected
maps. -/
def TestGetAllData (t : ResourcePrefetchPredictorTablesTest) : Bool :=
  let actual := t.tables_.GetAllData
  TestPrefetchDataAreEqual t.test_url_data_ actual.1 &&
    TestPrefetchDataAreEqual t.test_host_data_ actual.2

/-- `TestDeleteData()`: two URLs and one host are deleted; one URL and one host
are expected to remain. -/
def TestDeleteData (t : ResourcePrefetchPredictorTablesTest) : Bool :=
  let urls_to_delete := ["http://www.google.com", "http://www.yahoo.com"]
  let hosts_to_delete := ["www.yahoo.com"]
  let t := t.onTables (ResourcePrefetchPredictorTables.DeleteData urls_to_delete hosts_to_delete)
  let actual := t.tables_.GetAllData
  match t.AddKey [] "http://www.reddit.com", t.AddKey [] "www.facebook.com" with
  | some expected_url_data, some expected_host_data =>
      TestPrefetchDataAreEqual expected_url_data actual.1 &&
        TestPrefetchDataAreEqual expected_host_data actual.2
  | _, _ => false

/-- `TestDeleteSingleDataPoint()`: a URL is deleted and the maps are compared,
then a host is deleted and the maps are compared again. -/
def TestDeleteSingleDataPoint (t : ResourcePrefetchPredictorTablesTest) : Bool :=
  let t := t.onTables
    (ResourcePrefetchPredictorTables.DeleteSingleDataPoint "http://www.reddit.com"
      PREFETCH_KEY_TYPE_URL)
  let actual := t.tables_.GetAllData
  match (t.AddKey [] "http://www.google.com").bind
      (fun m => t.AddKey m "http://www.yahoo.com") with
  | none => false
  | some expected_url_data =>
    let first :=
      TestPrefetchDataAreEqual expected_url_data actual.1 &&
        TestPrefetchDataAreEqual t.test_host_data_ actual.2
    let t := t.onTables
      (ResourcePrefetchPredictorTables.DeleteSingleDataPoint "www.facebook.com"
        PREFETCH_KEY_TYPE_HOST)
    let actual := t.tables_.GetAllData
    match t.AddKey [] "www.yahoo.com" with
    | none => false
    | some expected_host_data =>
      first && TestPrefetchDataAreEqual expected_url_data actual.1 &&
        TestPrefetchDataAreEqual expected_host_data actual.2

/-- The URL aggregate `google` that `TestUpdateData` writes. -/
def update_google : PrefetchData :=
  { key_type := PREFETCH_KEY_TYPE_URL
    primary_key := "http://www.google.com"
    last_visit := 10
    resources :=
      [ CreateResourceData "http://www.google.com/style.css" RESOURCE_TYPE_STYLESHEET 6 2 0 1.0
          MEDIUM true false,
        CreateResourceData "http://www.google.com/image.png" RESOURCE_TYPE_IMAGE 6 4 1 4.2
          MEDIUM false false,
        CreateResourceData "http://www.google.com/a.xml" RESOURCE_TYPE_LAST_TYPE 1 0 0 6.1
          MEDIUM false false,
        CreateResourceData "http://www.resources.google.com/script.js" RESOURCE_TYPE_SCRIPT 12 0 0
          8.5 MEDIUM true true ] }

/-- The host aggregate `yahoo` that `TestUpdateData` writes. -/
def update_yahoo : PrefetchData :=
  { key_type := PREFETCH_KEY_TYPE_HOST
    primary_key := "www.yahoo.com"
    last_visit := 7
    resources :=
      [ CreateResourceData "http://www.yahoo.com/image.png" RESOURCE_TYPE_IMAGE 120 1 1 10.0
          MEDIUM true false ] }

/-- `TestUpdateData()`: `google` and `yahoo` are written over the stored
aggregates of the same keys; the other keys are expected as they were. -/
def TestUpdateData (t : ResourcePrefetchPredictorTablesTest) : Bool :=
  let t := t.onTables (ResourcePrefetchPredictorTables.UpdateData update_google update_yahoo)
  let actual := t.tables_.GetAllData
  match (t.AddKey [] "http://www.reddit.com").bind (fun m => t.AddKey m "http://www.yahoo.com"),
      t.AddKey [] "www.facebook.com" with
  | some expected_url_data, some expected_host_data =>
      let expected_url_data := expected_url_data.insert ("http://www.google.com", update_google)
      let expected_host_data := expected_host_data.insert ("www.yahoo.com", update_yahoo)
      TestPrefetchDataAreEqual expected_url_data actual.1 &&
        TestPrefetchDataAreEqual expected_host_data actual.2
  | _, _ => false

/-- `TestDeleteAllData()`: after `DeleteAllData()` both returned maps are
empty. -/
def TestDeleteAllData (t : ResourcePrefetchPredictorTablesTest) : Bool :=
  let t := t.onTables ResourcePrefetchPredictorTables.DeleteAllData
  let actual := t.tables_.GetAllData
  actual.1.isEmpty && actual.2.isEmpty

/-- The gtest expectation `EXPECT_NEAR(val1, val2, abs_error)`. -/
def EXPECT_NEAR (val1 val2 abs_error : ℚ) : Bool :=
  decide (|val1 - val2| ≤ abs_error)

/-- The record `js_resource` of the test case `ComputeScore`. -/
def js_resource : ResourceData :=
  CreateResourceData "http://www.resources.google.com/script.js" RESOURCE_TYPE_SCRIPT 11 0 0 1
    MEDIUM false false

/-- The record `image_resource` of the test case `ComputeScore`. -/
def image_resource : ResourceData :=
  CreateResourceData "http://www.resources.google.com/image.jpg" RESOURCE_TYPE_IMAGE 11 0 0 1
    MEDIUM false false

/-- The record `css_resource` of the test case `ComputeScore`. -/
def css_resource : ResourceData :=
  CreateResourceData "http://www.resources.google.com/stylesheet.css" RESOURCE_TYPE_STYLESHEET
    11 0 0 1 MEDIUM false false

/-- The record `font_resource` of the test case `ComputeScore`. -/
def font_resource : ResourceData :=
  CreateResourceData "http://www.resources.google.com/font.woff" RESOURCE_TYPE_FONT_RESOURCE
    11 0 0 1 MEDIUM false false

/-- The test case `ComputeScore`: the script, stylesheet and font scores are
equal, the script score is near 199 and the image score near 99. -/
def ComputeScoreTest : Bool :=
  let js_resource_score := ComputeScore js_resource
  let css_resource_score := ComputeScore css_resource
  let font_resource_score := ComputeScore font_resource
  let image_resource_score := ComputeScore image_resource
  decide (js_resource_score = css_resource_score) &&
    decide (js_resource_score = font_resource_score) &&
    EXPECT_NEAR 199 js_resource_score (1 / 10000) &&
    EXPECT_NEAR 99 image_resource_score (1 / 10000)

/-- The test case `DatabaseVersionIsSet`: the stored version is
`kDatabaseVersion`. -/
def DatabaseVersionIsSet (kDatabaseVersion : Int) (t : ResourcePrefetchPredictorTablesTest) :
    Bool :=
  decide (some kDatabaseVersion = t.db_.GetDatabaseVersion)

/-- The test case `DatabaseIsResetWhenIncompatible`: the stored version is set
to `kDatabaseVersion + 1` and read back, the database is reopened, and then the
version is `kDatabaseVersion` again and both maps are empty. -/
def DatabaseIsResetWhenIncompatible (kDatabaseVersion : Int)
    (t : ResourcePrefetchPredictorTablesTest) : Bool :=
  let version := kDatabaseVersion
  let set := t.db_.SetDatabaseVersion (version + 1)
  let t := { t with db_ := set.2 }
  let bumped := decide (some (version + 1) = t.db_.GetDatabaseVersion)
  let t := ReopenDatabase kDatabaseVersion t
  let reset := decide (some version = t.db_.GetDatabaseVersion)
  let actual := t.tables_.GetAllData
  set.1 && bumped && reset && actual.1.isEmpty && actual.2.isEmpty

end ResourcePrefetchPredictorTablesTest

/-- Sample value of the compiled-in schema version, a constant of the missing
header, for evaluating the unit test. -/
def sample_kDatabaseVersion : Int := 3

/-- Sample value of the configured maximum of entries of a map, with room for
the sample data. -/
def sample_max_entries : Nat := 100

/-- The fixture after the constructor, on an empty profile, and `SetUp()`. -/
def sample_fixture : ResourcePrefetchPredictorTablesTest :=
  (ResourcePrefetchPredictorTablesTest.create sample_kDatabaseVersion
    (PredictorDatabase.fresh sample_max_entries)).SetUp

/-- The fixture after the constructor and `SetUp()` when the configured maximum
is 3, the number of URL aggregates of the sample data. -/
def sample_fixture_at_capacity : ResourcePrefetchPredictorTablesTest :=
  (ResourcePrefetchPredictorTablesTest.create sample_kDatabaseVersion
    (PredictorDatabase.fresh 3)).SetUp

/-- A sample URL aggregate under a key that the sample data does not have, with
the given `last_visit`. -/
def sample_bing (last_visit : Int) : PrefetchData :=
  { key_type := PrefetchKeyType.PREFETCH_KEY_TYPE_URL
    primary_key := "http://www.bing.com"
    last_visit := last_visit
    resources :=
      [ CreateResourceData "http://www.bing.com/style.css" ResourceType.RESOURCE_TYPE_STYLESHEET
          3 0 0 1.0 RequestPriority.MEDIUM false false ] }

/-- The fixture of the reopen tests after the constructor, on an empty profile,
and `ResourcePrefetchPredictorTablesReopenTest::SetUp()`. -/
def sample_reopen_fixture : ResourcePrefetchPredictorTablesTest :=
  (ResourcePrefetchPredictorTablesTest.create sample_kDatabaseVersion
    (PredictorDatabase.fresh sample_max_entries)).ReopenTest_SetUp sample_kDatabaseVersion

/-! ## Auxiliary definitions for the statements -/

namespace ResourcePrefetchPredictorTables

/-- The map that a key type selects. -/
def mapOf (key_type : PrefetchKeyType) (tables : ResourcePrefetchPredictorTables) :
    PrefetchDataMap :=
  match key_type with
  | .PREFETCH_KEY_TYPE_URL => tables.url_table
  | .PREFETCH_KEY_TYPE_HOST => tables.host_table

/-- An `UpdateData` call that carries `data` for the keyspace `key_type` and
`other` for the other keyspace. -/
def UpdateDataFor (key_type : PrefetchKeyType) (data other : PrefetchData)
    (tables : ResourcePrefetchPredictorTables) : ResourcePrefetchPredictorTables :=
  match key_type with
  | .PREFETCH_KEY_TYPE_URL => tables.UpdateData data other
  | .PREFETCH_KEY_TYPE_HOST => tables.UpdateData other data

end ResourcePrefetchPredictorTables

/-- The other keyspace. -/
def PrefetchKeyType.other : PrefetchKeyType → PrefetchKeyType
  | .PREFETCH_KEY_TYPE_URL => .PREFETCH_KEY_TYPE_HOST
  | .PREFETCH_KEY_TYPE_HOST => .PREFETCH_KEY_TYPE_URL

/-- Two records "agree on hit count, miss count, consecutive-miss count and
average load position". -/
def SameStatistics (a b : ResourceData) : Prop :=
  a.number_of_hits = b.number_of_hits ∧ a.number_of_misses = b.number_of_misses ∧
    a.consecutive_misses = b.consecutive_misses ∧ a.average_position = b.average_position

instance (a b : ResourceData) : Decidable (SameStatistics a b) := by
  unfold SameStatistics; infer_instance

/-- A mutating call on the tables. -/
inductive Call where
  | UpdateData (url_data host_data : PrefetchData)
  | DeleteData (urls hosts : List String)
  | DeleteSingleDataPoint (key : String) (key_type : PrefetchKeyType)
  | DeleteAllData

/-- Performs one call. -/
def Call.run (c : Call) (tables : ResourcePrefetchPredictorTables) :
    ResourcePrefetchPredictorTables :=
  match c with
  | .UpdateData url_data host_data => tables.UpdateData url_data host_data
  | .DeleteData urls hosts => tables.DeleteData urls hosts
  | .DeleteSingleDataPoint key key_type => tables.DeleteSingleDataPoint key key_type
  | .DeleteAllData => tables.DeleteAllData

/-- Performs a sequence of calls in submission order. -/
def runCalls (calls : List Call) (tables : ResourcePrefetchPredictorTables) :
    ResourcePrefetchPredictorTables :=
  calls.foldl (fun t c => c.run t) tables

end predictors

/-! # The in-memory request queue store

`components/offline_pages/background/request_queue_in_memory_store.cc`. -/

namespace offline_pages

/-- The values of `ItemActionStatus` that the store reports; the enumeration is
declared in a header that is not among the source files. -/
inductive ItemActionStatus where
  | SUCCESS
  | ALREADY_EXISTS
  | NOT_FOUND
  deriving DecidableEq, Repr

/-- The values of `RequestQueue::UpdateRequestResult` that the store reports;
the enumeration is declared in a header that is not among the source files. -/
inductive UpdateRequestResult where
  | SUCCESS
  | REQUEST_DOES_NOT_EXIST
  deriving DecidableEq, Repr

/-- The value of `StoreState` that `state()` returns. -/
inductive StoreState where
  | LOADED
  deriving DecidableEq, Repr

/-- A `SavePageRequest`.  Its class is declared in a header that is not among
the source files; the store reads `request_id()` and copies everything else,
which is gathered in `fields`, of a type left open. -/
structure SavePageRequest (Fields : Type) where
  request_id : Int
  fields : Fields
  deriving DecidableEq

/-- `RequestsMap`, a `std::map<int64_t, SavePageRequest>`: a list of key/value
entries that is searched by key.  The key order of the map is observed by
`GetRequests` only and is not represented. -/
abbrev RequestsMap (Fields : Type) := List (Int × SavePageRequest Fields)

namespace RequestsMap

/-- Lookup by key, `requests_.find(request_id)`; `none` stands for
`requests_.end()`. -/
def find {Fields : Type} (requests : RequestsMap Fields) (request_id : Int) :
    Option (SavePageRequest Fields) :=
  List.lookup request_id requests

/-- Insertion of an entry whose key is absent, `requests_.insert(iter, pair)`
with `iter == requests_.end()`. -/
def insert {Fields : Type} (requests : RequestsMap Fields)
    (p : Int × SavePageRequest Fields) : RequestsMap Fields :=
  requests ++ [p]

/-- Assignment through an iterator, `iter->second = request`, for the entry
found under `request_id`. -/
def assign {Fields : Type} (requests : RequestsMap Fields) (request_id : Int)
    (request : SavePageRequest Fields) : RequestsMap Fields :=
  requests.map (fun p => if p.1 = request_id then (p.1, request) else p)

/-- Removal through an iterator, `requests_.erase(iter)`, for the entry found
under `request_id`; a map holds at most one entry per key. -/
def erase {Fields : Type} (requests : RequestsMap Fields) (request_id : Int) :
    RequestsMap Fields :=
  requests.filter (fun p => decide (p.1 ≠ request_id))

end RequestsMap

/-- The store `RequestQueueInMemoryStore`: its member `requests_`. -/
structure RequestQueueInMemoryStore (Fields : Type) where
  requests_ : RequestsMap Fields
  deriving DecidableEq

/-- The result object `UpdateRequestsResult` that `UpdateRequests` passes to
its callback. -/
structure UpdateRequestsResult (Fields : Type) where
  store_state : StoreState
  item_statuses : List (Int × ItemActionStatus)
  updated_items : List (SavePageRequest Fields)
  deriving DecidableEq

namespace RequestQueueInMemoryStore

/-- `state()`. -/
def state {Fields : Type} (_store : RequestQueueInMemoryStore Fields) : StoreState :=
  StoreState.LOADED

/-- `AddRequest(request, callback)`: the store afterwards and the status that
is posted to the callback. -/
def AddRequest {Fields : Type} (store : RequestQueueInMemoryStore Fields)
    (request : SavePageRequest Fields) : RequestQueueInMemoryStore Fields × ItemActionStatus :=
  match store.requests_.find request.request_id with
  | none => ({ requests_ := store.requests_.insert (request.request_id, request) },
      ItemActionStatus.SUCCESS)
  | some _ => (store, ItemActionStatus.ALREADY_EXISTS)

/-- One round of the loop of `UpdateRequests`: the state is the store and the
result object. -/
def UpdateRequestsStep {Fields : Type}
    (acc : RequestQueueInMemoryStore Fields × UpdateRequestsResult Fields)
    (request : SavePageRequest Fields) :
    RequestQueueInMemoryStore Fields × UpdateRequestsResult Fields :=
  match acc.1.requests_.find request.request_id with
  | some _ =>
      ({ requests_ := acc.1.requests_.assign request.request_id request },
        { acc.2 with
          updated_items := acc.2.updated_items ++ [request]
          item_statuses :=
            acc.2.item_statuses ++ [(request.request_id, ItemActionStatus.SUCCESS)] })
  | none =>
      (acc.1,
        { acc.2 with
          item_statuses :=
            acc.2.item_statuses ++ [(request.request_id, ItemActionStatus.NOT_FOUND)] })

/-- `UpdateRequests(requests, callback)`: the store afterwards and the result
object that is posted to the callback. -/
def UpdateRequests {Fields : Type} (store : RequestQueueInMemoryStore Fields)
    (requests : List (SavePageRequest Fields)) :
    RequestQueueInMemoryStore Fields × UpdateRequestsResult Fields :=
  requests.foldl UpdateRequestsStep
    (store, { store_state := store.state, item_statuses := [], updated_items := [] })

/-- What `RemoveRequests` posts to its callback: `results` and `requests`. -/
structure RemoveRequestsResult (Fields : Type) where
  results : List (Int × UpdateRequestResult)
  requests : List (SavePageRequest Fields)
  deriving DecidableEq

/-- One round of the loop of `RemoveRequests`: "If we find a request, mark it
as succeeded, and put it in the request list.  Otherwise mark it as failed." -/
def RemoveRequestsStep {Fields : Type}
    (acc : RequestQueueInMemoryStore Fields × RemoveRequestsResult Fields)
    (request_id : Int) : RequestQueueInMemoryStore Fields × RemoveRequestsResult Fields :=
  match acc.1.requests_.find request_id with
  | some request =>
      ({ requests_ := acc.1.requests_.erase request_id },
        { results := acc.2.results ++ [(request_id, UpdateRequestResult.SUCCESS)]
          requests := acc.2.requests ++ [request] })
  | none =>
      (acc.1,
        { results :=
            acc.2.results ++ [(request_id, UpdateRequestResult.REQUEST_DOES_NOT_EXIST)]
          requests := acc.2.requests })

/-- `RemoveRequests(request_ids, callback)`: the store afterwards and what is
posted to the callback. -/
def RemoveRequests {Fields : Type} (store : RequestQueueInMemoryStore Fields)
    (request_ids : List Int) :
    RequestQueueInMemoryStore Fields × RemoveRequestsResult Fields :=
  request_ids.foldl RemoveRequestsStep (store, { results := [], requests := [] })

/-- `Reset(callback)`: the store afterwards and the flag that is posted to the
callback. -/
def Reset {Fields : Type} (_store : RequestQueueInMemoryStore Fields) :
    RequestQueueInMemoryStore Fields × Bool :=
  ({ requests_ := [] }, true)

/-- The request ids that are stored, in the order of the entries. -/
def storedIds {Fields : Type} (store : RequestQueueInMemoryStore Fields) : List Int :=
  store.requests_.map Prod.fst

end RequestQueueInMemoryStore

end offline_pages

namespace offline_pages

/-- A sample store with `Fields := String`: the requests 1 and 2 were added to
an empty store. -/
def sample_store : RequestQueueInMemoryStore String :=
  ((RequestQueueInMemoryStore.AddRequest { requests_ := [] }
    { request_id := 1, fields := "http://a" }).1.AddRequest
    { request_id := 2, fields := "http://b" }).1

end offline_pages

/-! # Alternate protocols

`net/http/http_server_properties.cc`. -/

namespace net

/-- The enumeration `AlternateProtocol`, declared in a header that is not among
the source files; its three values are the cases of the switch in
`IsAlternateProtocolValid`. -/
inductive AlternateProtocol where
  | NPN_HTTP_2
  | QUIC
  | UNINITIALIZED_ALTERNATE_PROTOCOL
  deriving DecidableEq, Repr

/-- `IsAlternateProtocolValid(protocol)`. -/
def IsAlternateProtocolValid : AlternateProtocol → Bool
  | .NPN_HTTP_2 => true
  | .QUIC => true
  | .UNINITIALIZED_ALTERNATE_PROTOCOL => false

/-- `AlternateProtocolToString(protocol)`. -/
def AlternateProtocolToString : AlternateProtocol → String
  | .QUIC => "quic"
  | .NPN_HTTP_2 => "h2"
  | .UNINITIALIZED_ALTERNATE_PROTOCOL => "Uninitialized"

/-- `AlternateProtocolFromString(str)`: "npn-h2" and "npn-spdy/3.1" are
accepted "so that persisted settings with the old string can be loaded from
disk". -/
def AlternateProtocolFromString (str : String) : AlternateProtocol :=
  if str = "quic" then AlternateProtocol.QUIC
  else if str = "h2" then AlternateProtocol.NPN_HTTP_2
  else if str = "npn-h2" then AlternateProtocol.NPN_HTTP_2
  else if str = "npn-spdy/3.1" then AlternateProtocol.NPN_HTTP_2
  else AlternateProtocol.UNINITIALIZED_ALTERNATE_PROTOCOL

end net

/-! # Plugin content settings

`chrome/browser/plugins/plugin_utils.cc`. -/

namespace plugin_utils

/-- A `GURL`, as its spec. -/
abbrev GURL := String

/-- The two values of `ContentSettingsType` that the file names. -/
inductive ContentSettingsType where
  | CONTENT_SETTINGS_TYPE_JAVASCRIPT
  | CONTENT_SETTINGS_TYPE_PLUGINS
  deriving DecidableEq, Repr

/-- The enumeration `content_settings::SettingSource`, declared in a header
that is not among the source files; the file names `SETTING_SOURCE_POLICY`
only. -/
inductive SettingSource where
  | SETTING_SOURCE_NONE
  | SETTING_SOURCE_POLICY
  | SETTING_SOURCE_EXTENSION
  | SETTING_SOURCE_USER
  | SETTING_SOURCE_WHITELIST
  deriving DecidableEq, Repr

/-- The members of `content_settings::SettingInfo` that the file reads.  The
type of the patterns, `ContentSettingsPattern`, is left open. -/
structure SettingInfo (Pattern : Type) where
  source : SettingSource
  primary_pattern : Pattern
  secondary_pattern : Pattern
  deriving DecidableEq

/-- A `HostContentSettingsMap`, through the one method the file calls:
`GetWebsiteSetting(primary_url, secondary_url, content_type, resource, &info)`
returns a value, possibly null, and fills `info`.  The type of the values,
`base::Value`, is left open. -/
structure HostContentSettingsMap (Value Pattern : Type) where
  GetWebsiteSetting : GURL → GURL → ContentSettingsType → String →
    Option Value × SettingInfo Pattern

/-- What `GetPluginContentSettingInternal` writes through its three out
parameters; the last two are written only when their pointer is not null. -/
structure PluginContentSetting (ContentSetting : Type) where
  setting : ContentSetting
  uses_default_content_setting : Option Bool
  is_managed : Option Bool
  deriving DecidableEq

/-- The constant `kFlashPluginID`. -/
def kFlashPluginID : String := "adobe-flash-player"

/-- `GetPluginContentSettingInternal`.  `ValueToContentSetting` and
`ContentSettingsPattern::Wildcard()` belong to code that is not among the source
files and are parameters; `want_uses_default_content_setting` and
`want_is_managed` say whether the respective out pointer is not null. -/
def GetPluginContentSettingInternal {Value Pattern ContentSetting : Type}
    [DecidableEq Pattern]
    (ValueToContentSetting : Option Value → ContentSetting) (Wildcard : Pattern)
    (host_content_settings_map : HostContentSettingsMap Value Pattern)
    (use_javascript_setting : Bool) (policy_url plugin_url : GURL) (resource : String)
    (want_uses_default_content_setting want_is_managed : Bool) :
    PluginContentSetting ContentSetting :=
  let chosen : Option Value × SettingInfo Pattern × Bool :=
    if use_javascript_setting then
      let r := host_content_settings_map.GetWebsiteSetting policy_url policy_url
        ContentSettingsType.CONTENT_SETTINGS_TYPE_JAVASCRIPT ""
      (r.1, r.2, false)
    else
      let specific := host_content_settings_map.GetWebsiteSetting policy_url plugin_url
        ContentSettingsType.CONTENT_SETTINGS_TYPE_PLUGINS resource
      let general := host_content_settings_map.GetWebsiteSetting policy_url plugin_url
        ContentSettingsType.CONTENT_SETTINGS_TYPE_PLUGINS ""
      let uses_plugin_specific_setting :=
        specific.1.isSome && decide (general.2.source ≠ SettingSource.SETTING_SOURCE_POLICY)
      if uses_plugin_specific_setting then (specific.1, specific.2, true)
      else (general.1, general.2, false)
  let value := chosen.1
  let info := chosen.2.1
  let uses_plugin_specific_setting := chosen.2.2
  { setting := ValueToContentSetting value
    uses_default_content_setting :=
      if want_uses_default_content_setting then
        some (!uses_plugin_specific_setting && decide (info.primary_pattern = Wildcard) &&
          decide (info.secondary_pattern = Wildcard))
      else none
    is_managed :=
      if want_is_managed then some (decide (info.source = SettingSource.SETTING_SOURCE_POLICY))
      else none }

/-- `PluginUtils::GetPluginContentSetting`; `ShouldUseJavaScriptSettingForPlugin`
belongs to code that is not among the source files and is a parameter. -/
def GetPluginContentSetting {Value Pattern ContentSetting WebPluginInfo : Type}
    [DecidableEq Pattern]
    (ValueToContentSetting : Option Value → ContentSetting) (Wildcard : Pattern)
    (ShouldUseJavaScriptSettingForPlugin : WebPluginInfo → Bool)
    (host_content_settings_map : HostContentSettingsMap Value Pattern)
    (plugin : WebPluginInfo) (policy_url plugin_url : GURL) (resource : String)
    (want_uses_default_content_setting want_is_managed : Bool) :
    PluginContentSetting ContentSetting :=
  GetPluginContentSettingInternal ValueToContentSetting Wildcard host_content_settings_map
    (ShouldUseJavaScriptSettingForPlugin plugin) policy_url plugin_url resource
    want_uses_default_content_setting want_is_managed

/-- `PluginUtils::GetFlashPluginContentSetting`: the setting for the Flash
plugin, without the JavaScript setting and with both optional out pointers
null. -/
def GetFlashPluginContentSetting {Value Pattern ContentSetting : Type}
    [DecidableEq Pattern]
    (ValueToContentSetting : Option Value → ContentSetting) (Wildcard : Pattern)
    (host_content_settings_map : HostContentSettingsMap Value Pattern)
    (policy_url plugin_url : GURL) : ContentSetting :=
  (GetPluginContentSettingInternal ValueToContentSetting Wildcard host_content_settings_map
    false policy_url plugin_url kFlashPluginID false false).setting

end plugin_utils

namespace plugin_utils

/-- A sample map with `Value := String` and `Pattern := String`: the setting
for the resource `adobe-flash-player` is "block", set by the user, every other
plugins setting is "allow" and comes from `general_source`, and there is no
JavaScript setting. -/
def sample_map (general_source : SettingSource) : HostContentSettingsMap String String :=
  { GetWebsiteSetting := fun _ _ content_type resource =>
      match content_type with
      | .CONTENT_SETTINGS_TYPE_JAVASCRIPT =>
          (none, { source := .SETTING_SOURCE_NONE, primary_pattern := "*", secondary_pattern := "*" })
      | .CONTENT_SETTINGS_TYPE_PLUGINS =>
          if resource = "adobe-flash-player" then
            (some "block",
              { source := .SETTING_SOURCE_USER, primary_pattern := "[*.]example.com",
                secondary_pattern := "*" })
          else
            (some "allow",
              { source := general_source, primary_pattern := "*", secondary_pattern := "*" }) }

/-- A sample `ValueToContentSetting`, with the settings as strings. -/
def sample_ValueToContentSetting (value : Option String) : String :=
  value.getD "default"

end plugin_utils

/-! # The snippets service

`components/ntp_snippets/ntp_snippets_service.cc`.  The observer, the database,
the scheduler, the preferences and the histograms are collaborators whose
calls do not flow back into `categories_`; they are not represented. -/

namespace ntp_snippets

/-- A `base::Time`, as its internal value; the null time is 0. -/
abbrev Time := Int

/-- `base::Time::is_null()`. -/
def is_null (t : Time) : Bool := t == 0

/-- `base::TimeDelta::FromMinutes(minutes)`, in the microseconds of the
internal value. -/
def FromMinutes (minutes : Int) : Int := minutes * 60 * 1000000

/-- The constant `kMaxSnippetCount`. -/
def kMaxSnippetCount : Nat := 10

/-- The constant `kMaxArchivedSnippetCount`. -/
def kMaxArchivedSnippetCount : Nat := 200

/-- The constant `kDefaultExpiryTimeMins`. -/
def kDefaultExpiryTimeMins : Int := 3 * 24 * 60

/-- A `SnippetSource`, with the members the file reads; `url` is the spec of
the URL.  The struct is declared in a header that is not among the source
files. -/
structure SnippetSource where
  url : String
  publisher_name : String
  amp_url : String
  deriving DecidableEq

/-- An `NTPSnippet`, with the members the file reads through its accessors;
`dismissed` is read by `is_dismissed()` and written by `set_dismissed`.  The
class is declared in a header that is not among the source files. -/
structure NTPSnippet where
  id : String
  sources : List SnippetSource
  title : String
  snippet : String
  salient_image_url : String
  publish_date : Time
  expiry_date : Time
  score : ℚ
  dismissed : Bool
  deriving DecidableEq

/-- A `Category`, as its id. -/
abbrev Category := Int

/-- The values of `CategoryStatus` that the file names, and the initial one;
the enumeration is declared in a header that is not among the source files. -/
inductive CategoryStatus where
  | INITIALIZING
  | AVAILABLE
  | AVAILABLE_LOADING
  | NOT_PROVIDED
  | CATEGORY_EXPLICITLY_DISABLED
  | SIGNED_OUT
  | LOADING_ERROR
  deriving DecidableEq, Repr

/-- The states of the service, `NTPSnippetsService::State`. -/
inductive State where
  | NOT_INITED
  | READY
  | DISABLED
  | ERROR_OCCURRED
  deriving DecidableEq, Repr

/-- `NTPSnippetsService::CategoryContent`, with the members the file uses. -/
structure CategoryContent where
  status : CategoryStatus
  localized_title : String
  provided_by_server : Bool
  snippets : List NTPSnippet
  archived : List NTPSnippet
  dismissed : List NTPSnippet
  deriving DecidableEq

/-- What the file takes from code that is not among the source files:
`NTPSnippet::is_complete()`, the two id helpers of the suggestions provider,
whether the command line has the switch `kAddIncompleteSnippets`, and the two
member initialisers of `CategoryContent()`. -/
structure Environment where
  is_complete : NTPSnippet → Bool
  GetCategoryFromUniqueID : String → Category
  GetWithinCategoryIDFromUniqueID : String → String
  add_incomplete_snippets : Bool
  initial_status : CategoryStatus
  initial_provided_by_server : Bool

/-- `CategoryContent()`: the three vectors are empty. -/
def Environment.CategoryContent_default (env : Environment) : CategoryContent :=
  { status := env.initial_status
    localized_title := ""
    provided_by_server := env.initial_provided_by_server
    snippets := []
    archived := []
    dismissed := [] }

/-- `ids.insert(x)` on a `std::set<std::string>`, as a list without
repetition. -/
def setInsert (ids : List String) (x : String) : List String :=
  if ids.contains x then ids else ids ++ [x]

/-- `GetAllIDs(snippets)`: the ids of the snippets and the URLs of all their
sources. -/
def GetAllIDs (snippets : List NTPSnippet) : List String :=
  snippets.foldl
    (fun ids snippet =>
      snippet.sources.foldl (fun ids source => setInsert ids source.url)
        (setInsert ids snippet.id))
    []

/-- `GetMainIDs(snippets)`: the ids of the snippets. -/
def GetMainIDs (snippets : List NTPSnippet) : List String :=
  snippets.foldl (fun ids snippet => setInsert ids snippet.id) []

/-- `IsSnippetInSet(snippet, ids, match_all_ids)`. -/
def IsSnippetInSet (snippet : NTPSnippet) (ids : List String) (match_all_ids : Bool) : Bool :=
  if ids.contains snippet.id then true
  else if !match_all_ids then false
  else snippet.sources.any (fun source => ids.contains source.url)

/-- `EraseMatchingSnippets(snippets, matching_ids, match_all_ids)`: the
snippets that are left. -/
def EraseMatchingSnippets (snippets : List NTPSnippet) (matching_ids : List String)
    (match_all_ids : Bool) : List NTPSnippet :=
  snippets.filter (fun snippet => !IsSnippetInSet snippet matching_ids match_all_ids)

/-- The map `categories_`, a `std::map<Category, CategoryContent>`: a list of
key/value entries that is searched by key. -/
abbrev CategoryMap := List (Category × CategoryContent)

namespace CategoryMap

/-- Lookup by key, `categories_.find(category)`. -/
def find (categories : CategoryMap) (category : Category) : Option CategoryContent :=
  List.lookup category categories

/-- The map after `categories_[category]` was evaluated: an absent key is
inserted with `CategoryContent()`. -/
def touch (env : Environment) (categories : CategoryMap) (category : Category) : CategoryMap :=
  match categories.find category with
  | some _ => categories
  | none => categories ++ [(category, env.CategoryContent_default)]

/-- The content that `categories_[category]` refers to. -/
def get (env : Environment) (categories : CategoryMap) (category : Category) : CategoryContent :=
  match categories.find category with
  | some content => content
  | none => env.CategoryContent_default

/-- Assignment through the reference `categories_[category]`. -/
def set (env : Environment) (categories : CategoryMap) (category : Category)
    (content : CategoryContent) : CategoryMap :=
  (touch env categories category).map (fun p => if p.1 = category then (p.1, content) else p)

/-- Removal by key, `categories_.erase(category)`. -/
def erase (categories : CategoryMap) (category : Category) : CategoryMap :=
  categories.filter (fun p => decide (p.1 ≠ category))

end CategoryMap

/-- The state of an `NTPSnippetsService` that the modelled methods read and
write. -/
structure NTPSnippetsService where
  state_ : State
  articles_category_ : Category
  categories_ : CategoryMap
  deriving DecidableEq

/-- One category of a fetch result, `NTPSnippetsFetcher::FetchedCategory`. -/
structure FetchedCategory where
  category : Category
  localized_title : String
  snippets : List NTPSnippet
  deriving DecidableEq

namespace NTPSnippetsService

/-- `ready()`, an inline member of the header that is not among the source
files: the service is in the state `READY`. -/
def ready (service : NTPSnippetsService) : Bool :=
  decide (service.state_ = State.READY)

/-- The body of `DismissSuggestion` on the content of the category: the first
current snippet with the id, if there is one, gets its dismissed flag set, is
pushed to the back of `dismissed` and is erased from `snippets`. -/
def DismissSuggestionInContent (content : CategoryContent) (snippet_id : String) :
    CategoryContent :=
  match content.snippets.find? (fun snippet => snippet.id == snippet_id) with
  | none => content
  | some it =>
      { content with
        dismissed := content.dismissed ++ [{ it with dismissed := true }]
        snippets := content.snippets.eraseP (fun snippet => snippet.id == snippet_id) }

/-- `DismissSuggestion(suggestion_id)`. -/
def DismissSuggestion (env : Environment) (service : NTPSnippetsService)
    (suggestion_id : String) : NTPSnippetsService :=
  if !service.ready then service
  else
    let category := env.GetCategoryFromUniqueID suggestion_id
    let snippet_id := env.GetWithinCategoryIDFromUniqueID suggestion_id
    let content := CategoryMap.get env service.categories_ category
    { service with
      categories_ :=
        CategoryMap.set env service.categories_ category
          (DismissSuggestionInContent content snippet_id) }

/-- The part of `ArchiveSnippets(category, to_archive)` that acts on the
content: the snippets are moved to the front of `archived`, and what exceeds
`kMaxArchivedSnippetCount` is dropped from the back.  The vector `to_archive`
is empty afterwards. -/
def ArchiveSnippets (content : CategoryContent) (to_archive : List NTPSnippet) :
    CategoryContent :=
  let archived := to_archive ++ content.archived
  { content with
    archived :=
      if archived.length > kMaxArchivedSnippetCount then archived.take kMaxArchivedSnippetCount
      else archived }

/-- The loop of `ReplaceSnippets` that fills in default dates, for one
snippet; `now` is `base::Time::Now()`, taken once for the call, and the sum of
a time and a delta is not bounded to 64 bits. -/
def FillInDefaultDates (now : Time) (snippet : NTPSnippet) : NTPSnippet :=
  let snippet :=
    if is_null snippet.publish_date then { snippet with publish_date := now } else snippet
  if is_null snippet.expiry_date then
    { snippet with expiry_date := snippet.publish_date + FromMinutes kDefaultExpiryTimeMins }
  else snippet

/-- What is left of `new_snippets` when `ReplaceSnippets` reaches its test
`new_snippets.empty()`: the snippets that have been dismissed are removed, the
default dates are filled in and, unless the switch `kAddIncompleteSnippets` is
set, the incomplete snippets are removed. -/
def UsableNewSnippets (env : Environment) (now : Time) (content : CategoryContent)
    (new_snippets : List NTPSnippet) : List NTPSnippet :=
  let new_snippets := EraseMatchingSnippets new_snippets (GetAllIDs content.dismissed) true
  let new_snippets := new_snippets.map (FillInDefaultDates now)
  if !env.add_incomplete_snippets then
    new_snippets.filter (fun snippet => env.is_complete snippet)
  else new_snippets

/-- The body of `ReplaceSnippets(category, new_snippets)` on the content of the
category. -/
def ReplaceSnippetsInContent (env : Environment) (now : Time) (content : CategoryContent)
    (new_snippets : List NTPSnippet) : CategoryContent :=
  let new_snippets := UsableNewSnippets env now content new_snippets
  if new_snippets.isEmpty then content
  else
    let current := EraseMatchingSnippets content.snippets (GetMainIDs new_snippets) false
    let content := ArchiveSnippets { content with snippets := [] } current
    { content with snippets := new_snippets }

/-- `ReplaceSnippets(category, new_snippets)`. -/
def ReplaceSnippets (env : Environment) (now : Time) (service : NTPSnippetsService)
    (category : Category) (new_snippets : List NTPSnippet) : NTPSnippetsService :=
  let content := CategoryMap.get env service.categories_ category
  { service with
    categories_ :=
      CategoryMap.set env service.categories_ category
        (ReplaceSnippetsInContent env now content new_snippets) }

/-- `ClearExpiredDismissedSnippets()`: in every category the dismissed snippets
with `expiry_date() <= now` are removed; a category other than the articles
category that is then empty and was not provided by the server is erased. -/
def ClearExpiredDismissedSnippets (now : Time) (service : NTPSnippetsService) :
    NTPSnippetsService :=
  let categories : CategoryMap :=
    service.categories_.map (fun item =>
      (item.1,
        { item.2 with
          dismissed := item.2.dismissed.filter (fun snippet => !decide (snippet.expiry_date ≤ now)) }))
  let categories_to_erase : List Category :=
    (categories.filter (fun item =>
      item.2.snippets.isEmpty && item.2.dismissed.isEmpty &&
        decide (item.1 ≠ service.articles_category_) && !item.2.provided_by_server)).map Prod.fst
  { service with categories_ := categories_to_erase.foldl CategoryMap.erase categories }

/-- One round of the loop of `OnFetchFinished` over the fetched categories. -/
def OnFetchFinishedStep (env : Environment) (now : Time) (service : NTPSnippetsService)
    (fetched_category : FetchedCategory) : NTPSnippetsService :=
  let category := fetched_category.category
  let service :=
    if category ≠ service.articles_category_ then
      { service with
        categories_ :=
          CategoryMap.set env service.categories_ category
            { CategoryMap.get env service.categories_ category with
              localized_title := fetched_category.localized_title } }
    else service
  let service :=
    { service with
      categories_ :=
        CategoryMap.set env service.categories_ category
          { CategoryMap.get env service.categories_ category with provided_by_server := true } }
  ReplaceSnippets env now service category fetched_category.snippets

/-- `OnFetchFinished(snippets)`; `none` is a fetch that failed. -/
def OnFetchFinished (env : Environment) (now : Time) (service : NTPSnippetsService)
    (snippets : Option (List FetchedCategory)) : NTPSnippetsService :=
  if !service.ready then service
  else
    let service :=
      { service with
        categories_ :=
          service.categories_.map (fun item => (item.1, { item.2 with provided_by_server := false })) }
    let service := ClearExpiredDismissedSnippets now service
    let service :=
      match snippets with
      | some fetched => fetched.foldl (OnFetchFinishedStep env now) service
      | none => service
    { service with
      categories_ :=
        service.categories_.map (fun item =>
          (item.1, { item.2 with status := CategoryStatus.AVAILABLE })) }

end NTPSnippetsService

/-- The first loop of `OnFetchFinished`: `provided_by_server` is cleared in
every category. -/
def ClearProvidedByServer (service : NTPSnippetsService) : NTPSnippetsService :=
  { service with
    categories_ :=
      service.categories_.map (fun item => (item.1, { item.2 with provided_by_server := false })) }

/-- The last loop of `OnFetchFinished`: the status of every category becomes
`AVAILABLE`. -/
def MarkAllAvailable (service : NTPSnippetsService) : NTPSnippetsService :=
  { service with
    categories_ :=
      service.categories_.map (fun item =>
        (item.1, { item.2 with status := CategoryStatus.AVAILABLE })) }

/-- The dismissed snippets that `ClearExpiredDismissedSnippets` keeps: those
whose expiry time is later than `now`. -/
def unexpired (now : Time) (dismissed : List NTPSnippet) : List NTPSnippet :=
  dismissed.filter (fun snippet => !decide (snippet.expiry_date ≤ now))

/-- The ids under which a snippet is known: its id and the URLs of its
sources. -/
def allIDs (snippet : NTPSnippet) : List String :=
  snippet.id :: snippet.sources.map SnippetSource.url

/-- The id or a source URL of `snippet` equals the id or a source URL of one of
the `dismissed` snippets. -/
def MatchesDismissed (snippet : NTPSnippet) (dismissed : List NTPSnippet) : Prop :=
  ∃ d ∈ dismissed, ∃ x ∈ allIDs snippet, x ∈ allIDs d

instance (snippet : NTPSnippet) (dismissed : List NTPSnippet) :
    Decidable (MatchesDismissed snippet dismissed) := by
  unfold MatchesDismissed; infer_instance

end ntp_snippets

namespace ntp_snippets

/-- A sample environment: a snippet is complete when it has an id, a source, a
title, a text and both dates; a unique id is the category id, a separator and
the id within the category, and the sample ids all belong to category 1; the
switch `kAddIncompleteSnippets` is not set. -/
def sample_env : Environment :=
  { is_complete := fun snippet =>
      !snippet.id.isEmpty && !snippet.sources.isEmpty && !snippet.title.isEmpty &&
        !snippet.snippet.isEmpty && !is_null snippet.publish_date &&
        !is_null snippet.expiry_date
    GetCategoryFromUniqueID := fun _ => 1
    GetWithinCategoryIDFromUniqueID := fun suggestion_id => suggestion_id.drop 2
    add_incomplete_snippets := false
    initial_status := CategoryStatus.INITIALIZING
    initial_provided_by_server := true }

/-- A sample time for `base::Time::Now()`. -/
def sample_now : Time := 5000

/-- A sample complete snippet with the given id and one further source URL,
published at 1000 and expiring at 9000. -/
def sample_snippet (id other_source : String) : NTPSnippet :=
  { id := id
    sources :=
      [ { url := id, publisher_name := "Site Title", amp_url := "http://localhost/amp" },
        { url := other_source, publisher_name := "Site Title", amp_url := "" } ]
    title := "Title"
    snippet := "Snippet"
    salient_image_url := "http://localhost/salient_image"
    publish_date := 1000
    expiry_date := 9000
    score := 0
    dismissed := false }

/-- A sample service: ready, with the articles category 1, which is empty. -/
def sample_service : NTPSnippetsService :=
  { state_ := State.READY
    articles_category_ := 1
    categories_ :=
      [(1, { status := CategoryStatus.AVAILABLE, localized_title := "Articles",
             provided_by_server := true, snippets := [], archived := [], dismissed := [] })] }

/-- The sample service after a fetch of two snippets that share a source
URL. -/
def sample_service_fetched : NTPSnippetsService :=
  sample_service.ReplaceSnippets sample_env sample_now 1
    [sample_snippet "http://a.com" "http://shared.com",
      sample_snippet "http://b.com" "http://shared.com"]

/-- The sample service after the fetch and after the first of the two snippets
was dismissed. -/
def sample_service_dismissed : NTPSnippetsService :=
  sample_service_fetched.DismissSuggestion sample_env "1|http://a.com"

/-- A snippet as in `GetTestExpiredJson()` of the unit test: complete, with an
expiry time that is the current time. -/
def sample_expired_snippet : NTPSnippet :=
  { sample_snippet "http://localhost/foobar" "http://localhost/amp" with
    expiry_date := sample_now }

/-- A snippet as in `GetIncompleteJson()` of the unit test: it has no URL, so
no id and no source. -/
def sample_incomplete_snippet : NTPSnippet :=
  { sample_snippet "" "" with sources := [] }

end ntp_snippets

namespace predictors

/-! ## Lemmas on maps -/

namespace PrefetchDataMap

theorem find_nil (k : String) : find [] k = none := rfl

theorem find_cons (p : String × PrefetchData) (m : PrefetchDataMap) (k : String) :
    find (p :: m) k = if k = p.1 then some p.2 else find m k := by
  obtain ⟨a, b⟩ := p
  unfold find
  by_cases h : k = a
  · subst h; simp [List.lookup]
  · have : (k == a) = false := by simpa using h
    simp [List.lookup, this, h]

theorem find_append (m₁ m₂ : PrefetchDataMap) (k : String) :
    find (m₁ ++ m₂) k = (find m₁ k).orElse (fun _ => find m₂ k) := by
  induction m₁ with
  | nil => simp [find_nil]
  | cons p m ih =>
    rw [List.cons_append, find_cons, find_cons, ih]
    split <;> simp

theorem find_eq_none_iff (m : PrefetchDataMap) (k : String) :
    find m k = none ↔ ∀ p ∈ m, p.1 ≠ k := by
  induction m with
  | nil => simp [find_nil]
  | cons p m ih =>
    rw [find_cons]
    by_cases h : k = p.1
    · subst h; simp
    · simp only [h, if_false, ih, List.mem_cons, forall_eq_or_imp]
      constructor
      · intro hm; exact ⟨fun e => h e.symm, hm⟩
      · intro hm; exact hm.2

theorem find_erase (m : PrefetchDataMap) (key k : String) :
    find (erase m key) k = if k = key then none else find m k := by
  induction m with
  | nil => simp [erase, find_nil]
  | cons p m ih =>
    unfold erase at ih ⊢
    by_cases hp : p.1 = key
    · rw [List.filter_cons_of_neg (by simp [hp]), ih, find_cons]
      by_cases hk : k = key
      · simp [hk]
      · have : k ≠ p.1 := by rw [hp]; exact hk
        simp [hk, this]
    · rw [List.filter_cons_of_pos (by simpa using hp), find_cons, find_cons, ih]
      by_cases hk : k = key
      · have : key ≠ p.1 := fun e => hp e.symm
        simp [hk, this]
      · simp [hk]

theorem erase_of_find_none (m : PrefetchDataMap) (key : String) (h : find m key = none) :
    erase m key = m := by
  rw [find_eq_none_iff] at h
  unfold erase
  rw [List.filter_eq_self]
  intro p hp
  simpa using h p hp

theorem erase_erase (m : PrefetchDataMap) (key : String) :
    erase (erase m key) key = erase m key :=
  erase_of_find_none _ _ (by rw [find_erase]; simp)

theorem foldl_erase_eq_filter (keys : List String) (m : PrefetchDataMap) :
    keys.foldl erase m = m.filter (fun p => !keys.contains p.1) := by
  induction keys generalizing m with
  | nil => simp
  | cons key keys ih =>
    rw [List.foldl_cons, ih]
    unfold erase
    rw [List.filter_filter]
    congr 1
    funext p
    by_cases h : p.1 = key
    · simp [h]
    · simp [h]

theorem find_foldl_erase (keys : List String) (m : PrefetchDataMap) (k : String) :
    find (keys.foldl erase m) k = if k ∈ keys then none else find m k := by
  induction keys generalizing m with
  | nil => simp
  | cons key keys ih =>
    rw [List.foldl_cons, ih, find_erase]
    by_cases h1 : k ∈ keys
    · simp [h1]
    · by_cases h2 : k = key
      · simp [h2]
      · simp [h1, h2]

theorem find_replace (m : PrefetchDataMap) (data : PrefetchData) (key k : String) :
    find (m.map (fun p => if p.1 == key then (key, data) else p)) k =
      if k = key then (find m key).map (fun _ => data) else find m k := by
  induction m with
  | nil => simp [find_nil]
  | cons p m ih =>
    rw [List.map_cons, find_cons, ih]
    simp only [find_cons]
    by_cases hp : p.1 = key
    · by_cases hk : k = key
      · simp [hp, hk]
      · have : k ≠ p.1 := by rw [hp]; exact hk
        simp [hp, hk, this]
    · have hpb : (p.1 == key) = false := by simpa using hp
      by_cases hk : k = key
      · have h2 : key ≠ p.1 := fun e => hp e.symm
        simp [hpb, hk, h2]
      · simp [hpb, hk]

end PrefetchDataMap

namespace ResourcePrefetchPredictorTables

open PrefetchDataMap

theorem mem_of_mem_EvictOldest (m : PrefetchDataMap) (p : String × PrefetchData)
    (h : p ∈ EvictOldest m) : p ∈ m := by
  unfold EvictOldest at h
  split at h
  · exact h
  · exact List.mem_of_mem_eraseP h

theorem mem_of_mem_EvictOldestTimes (n : Nat) (m : PrefetchDataMap)
    (p : String × PrefetchData) (h : p ∈ EvictOldestTimes n m) : p ∈ m := by
  induction n generalizing m with
  | zero => exact h
  | succ n ih => exact mem_of_mem_EvictOldest m p (ih (EvictOldest m) h)

theorem EnforceCapacity_of_le (max_entries : Nat) (m : PrefetchDataMap)
    (h : m.length ≤ max_entries) : EnforceCapacity max_entries m = m := by
  unfold EnforceCapacity
  rw [Nat.sub_eq_zero_of_le h]
  rfl

theorem find_EnforceCapacity_none (max_entries : Nat) (m : PrefetchDataMap) (k : String)
    (h : find m k = none) : find (EnforceCapacity max_entries m) k = none := by
  rw [find_eq_none_iff] at h ⊢
  intro p hp
  exact h p (mem_of_mem_EvictOldestTimes _ m p hp)

theorem find_UpdateDataHelper_of_stored (max_entries : Nat) (data old : PrefetchData)
    (m : PrefetchDataMap) (k : String) (hne : data.primary_key ≠ "")
    (hold : find m data.primary_key = some old) :
    find (UpdateDataHelper max_entries data m) k =
      if k = data.primary_key then some data else find m k := by
  unfold UpdateDataHelper
  rw [if_neg hne, hold]
  simp only []
  rw [find_replace, hold]
  simp

theorem find_UpdateDataHelper_of_room (max_entries : Nat) (data : PrefetchData)
    (m : PrefetchDataMap) (k : String) (hne : data.primary_key ≠ "")
    (habsent : find m data.primary_key = none) (hroom : m.length < max_entries) :
    find (UpdateDataHelper max_entries data m) k =
      if k = data.primary_key then some data else find m k := by
  unfold UpdateDataHelper
  rw [if_neg hne, habsent]
  simp only []
  rw [EnforceCapacity_of_le _ _ (by simp; omega), find_append, find_cons, find_nil]
  by_cases hk : k = data.primary_key
  · simp [hk, habsent]
  · simp [hk]

theorem find_UpdateDataHelper (max_entries : Nat) (data : PrefetchData) (m : PrefetchDataMap)
    (k : String) (hne : data.primary_key ≠ "")
    (hcap : (find m data.primary_key).isSome = true ∨ m.length < max_entries) :
    find (UpdateDataHelper max_entries data m) k =
      if k = data.primary_key then some data else find m k := by
  cases hf : find m data.primary_key with
  | some old => exact find_UpdateDataHelper_of_stored max_entries data old m k hne hf
  | none =>
    rcases hcap with h | h
    · rw [hf] at h; exact absurd h (by simp)
    · exact find_UpdateDataHelper_of_room max_entries data m k hne hf h

theorem UpdateDataHelper_empty (max_entries : Nat) (data : PrefetchData) (m : PrefetchDataMap)
    (h : data.primary_key = "") : UpdateDataHelper max_entries data m = m := by
  unfold UpdateDataHelper
  rw [if_pos h]

theorem length_UpdateDataHelper_of_find (max_entries : Nat) (data old : PrefetchData)
    (m : PrefetchDataMap) (h : find m data.primary_key = some old) :
    (UpdateDataHelper max_entries data m).length = m.length := by
  unfold UpdateDataHelper
  split
  · rfl
  · rw [h]; simp

theorem find_empty_UpdateDataHelper (max_entries : Nat) (data : PrefetchData)
    (m : PrefetchDataMap) (h : find m "" = none) :
    find (UpdateDataHelper max_entries data m) "" = none := by
  unfold UpdateDataHelper
  split
  · exact h
  · next hne =>
    cases hf : find m data.primary_key with
    | some old =>
      simp only []
      rw [find_replace, if_neg (fun e => hne e.symm)]
      exact h
    | none =>
      simp only []
      apply find_EnforceCapacity_none
      rw [find_append, h, find_cons, find_nil, if_neg (fun e => hne e.symm)]
      rfl

end ResourcePrefetchPredictorTables

/-! ## Lemmas on calls and on opening -/

theorem foldl_erase_of_absent (keys : List String) (m : PrefetchDataMap)
    (h : ∀ key ∈ keys, PrefetchDataMap.find m key = none) :
    keys.foldl PrefetchDataMap.erase m = m := by
  induction keys with
  | nil => rfl
  | cons key keys ih =>
    rw [List.foldl_cons, PrefetchDataMap.erase_of_find_none m key (h key (by simp))]
    exact ih (fun key' hk => h key' (by simp [hk]))

theorem run_keeps_no_empty_key (c : Call) (tables : ResourcePrefetchPredictorTables)
    (h : PrefetchDataMap.find tables.url_table "" = none ∧
      PrefetchDataMap.find tables.host_table "" = none) :
    PrefetchDataMap.find (c.run tables).url_table "" = none ∧
      PrefetchDataMap.find (c.run tables).host_table "" = none := by
  cases c with
  | UpdateData url_data host_data =>
    exact ⟨ResourcePrefetchPredictorTables.find_empty_UpdateDataHelper _ url_data _ h.1,
      ResourcePrefetchPredictorTables.find_empty_UpdateDataHelper _ host_data _ h.2⟩
  | DeleteData urls hosts =>
    constructor
    · show PrefetchDataMap.find (urls.foldl PrefetchDataMap.erase tables.url_table) "" = none
      rw [PrefetchDataMap.find_foldl_erase, h.1]; simp
    · show PrefetchDataMap.find (hosts.foldl PrefetchDataMap.erase tables.host_table) "" = none
      rw [PrefetchDataMap.find_foldl_erase, h.2]; simp
  | DeleteSingleDataPoint key key_type =>
    cases key_type with
    | PREFETCH_KEY_TYPE_URL =>
      refine ⟨?_, h.2⟩
      show PrefetchDataMap.find (PrefetchDataMap.erase tables.url_table key) "" = none
      rw [PrefetchDataMap.find_erase, h.1]; simp
    | PREFETCH_KEY_TYPE_HOST =>
      refine ⟨h.1, ?_⟩
      show PrefetchDataMap.find (PrefetchDataMap.erase tables.host_table key) "" = none
      rw [PrefetchDataMap.find_erase, h.2]; simp
  | DeleteAllData => exact ⟨rfl, rfl⟩

theorem runCalls_keeps_no_empty_key (calls : List Call)
    (tables : ResourcePrefetchPredictorTables)
    (h : PrefetchDataMap.find tables.url_table "" = none ∧
      PrefetchDataMap.find tables.host_table "" = none) :
    PrefetchDataMap.find (runCalls calls tables).url_table "" = none ∧
      PrefetchDataMap.find (runCalls calls tables).host_table "" = none := by
  induction calls generalizing tables with
  | nil => exact h
  | cons c calls ih => exact ih (c.run tables) (run_keeps_no_empty_key c tables h)

theorem Open_version (kDatabaseVersion : Int) (db : PredictorDatabase) :
    (PredictorDatabase.Open kDatabaseVersion db).version = some kDatabaseVersion := by
  unfold PredictorDatabase.Open
  split
  · rfl
  · split
    · next stored hv he => rw [hv, he]
    · rfl

theorem Open_of_version_eq (kDatabaseVersion : Int) (db : PredictorDatabase)
    (h : db.version = some kDatabaseVersion) :
    PredictorDatabase.Open kDatabaseVersion db = db := by
  unfold PredictorDatabase.Open
  rw [h]
  simp

theorem Open_of_version_ne (kDatabaseVersion : Int) (db : PredictorDatabase)
    (h : db.version ≠ some kDatabaseVersion) :
    PredictorDatabase.Open kDatabaseVersion db =
      { version := some kDatabaseVersion
        resource_prefetch_tables :=
          { db.resource_prefetch_tables with url_table := [], host_table := [] } } := by
  unfold PredictorDatabase.Open
  split
  · rfl
  · next stored hv =>
    have : stored ≠ kDatabaseVersion := fun e => h (by rw [hv, e])
    rw [if_neg this]

theorem SetUp_version (t : ResourcePrefetchPredictorTablesTest) :
    t.SetUp.db_.version = t.db_.version := rfl

/-! ## The claims -/

open ResourcePrefetchPredictorTables ResourcePrefetchPredictorTablesTest

/-- C1, as stated, fails: `UpdateData` enforces the capacity after an insert.
On the sample data with the configured maximum 3, the URL map is full; an
update with an aggregate under a new key, visited last, evicts
`http://www.google.com`, the aggregate with the oldest `last_visit`, so that an
entry stored under another key is not returned any more; and an update with an
aggregate under a new key whose `last_visit` is the oldest evicts that
aggregate itself, so that it is not returned under its own key. -/
theorem UpdateData_GetAllData_round_trip_counterexample :
    (sample_bing 10).primary_key ≠ "" ∧ update_yahoo.primary_key ≠ "" ∧
    "http://www.google.com" ≠ (sample_bing 10).primary_key ∧
    sample_fixture_at_capacity.tables_.GetAllData.1.find "http://www.google.com" =
      some sample_google ∧
    (sample_fixture_at_capacity.tables_.UpdateData (sample_bing 10)
      update_yahoo).GetAllData.1.find "http://www.google.com" = none ∧
    (sample_fixture_at_capacity.tables_.UpdateData (sample_bing 0)
      update_yahoo).GetAllData.1.find (sample_bing 0).primary_key = none := by
  decide!

/-- C2. Overwrite, not merge: if an aggregate `old` is stored under the primary
key of `new` in the keyspace `key_type`, an `UpdateData` call that carries
`new` for that keyspace replaces it wholesale: afterwards the aggregate stored
for the key is `new`, the map has as many entries as before, and a resource `r`
that is not in the new list, such as one that occurred only in the old list, is
in the resource list of no aggregate stored for the key. -/
theorem UpdateData_overwrites (tables : ResourcePrefetchPredictorTables)
    (key_type : PrefetchKeyType) (old new other : PrefetchData) (r : ResourceData)
    (hne : new.primary_key ≠ "")
    (hold : (tables.mapOf key_type).find new.primary_key = some old)
    (hr_new : r ∉ new.resources) :
    ((tables.UpdateDataFor key_type new other).mapOf key_type).find new.primary_key = some new ∧
    ((tables.UpdateDataFor key_type new other).mapOf key_type).length =
      (tables.mapOf key_type).length ∧
    (((tables.UpdateDataFor key_type new other).mapOf key_type).find new.primary_key).map
      PrefetchData.resources = some new.resources ∧
    ¬ ∃ stored, ((tables.UpdateDataFor key_type new other).mapOf key_type).find new.primary_key =
      some stored ∧ r ∈ stored.resources := by
  have key : ((tables.UpdateDataFor key_type new other).mapOf key_type) =
      UpdateDataHelper tables.max_entries new (tables.mapOf key_type) := by
    cases key_type <;> rfl
  have hfind : PrefetchDataMap.find
      (UpdateDataHelper tables.max_entries new (tables.mapOf key_type))
      new.primary_key = some new := by
    rw [find_UpdateDataHelper_of_stored _ new old _ _ hne hold, if_pos rfl]
  rw [key]
  refine ⟨hfind, length_UpdateDataHelper_of_find _ new old _ hold, by rw [hfind]; rfl, ?_⟩
  rintro ⟨stored, hs, hmem⟩
  rw [hfind] at hs
  cases hs
  exact hr_new hmem

/-- Witness of C2 on the sample data: the five resources stored for
`http://www.google.com` are replaced by the four of the update of
`TestUpdateData`; `http://www.google.com/script.js` occurs only in the old
list. -/
theorem UpdateData_overwrites_witness :
    update_google.primary_key ≠ "" ∧
    (sample_fixture.tables_.mapOf .PREFETCH_KEY_TYPE_URL).find update_google.primary_key =
      some sample_google ∧
    sample_google.resources.length = 5 ∧ update_google.resources.length = 4 ∧
    CreateResourceData "http://www.google.com/script.js" .RESOURCE_TYPE_SCRIPT 4 0 1 2.1
      .MEDIUM false false ∈ sample_google.resources ∧
    CreateResourceData "http://www.google.com/script.js" .RESOURCE_TYPE_SCRIPT 4 0 1 2.1
      .MEDIUM false false ∉ update_google.resources ∧
    (((sample_fixture.tables_.UpdateDataFor .PREFETCH_KEY_TYPE_URL update_google
        update_yahoo).mapOf .PREFETCH_KEY_TYPE_URL).find update_google.primary_key =
        some update_google ∧
      ((sample_fixture.tables_.UpdateDataFor .PREFETCH_KEY_TYPE_URL update_google
        update_yahoo).mapOf .PREFETCH_KEY_TYPE_URL).length =
        (sample_fixture.tables_.mapOf .PREFETCH_KEY_TYPE_URL).length ∧
      (((sample_fixture.tables_.UpdateDataFor .PREFETCH_KEY_TYPE_URL update_google
        update_yahoo).mapOf .PREFETCH_KEY_TYPE_URL).find update_google.primary_key).map
        PrefetchData.resources = some update_google.resources ∧
      ¬ ∃ stored, ((sample_fixture.tables_.UpdateDataFor .PREFETCH_KEY_TYPE_URL update_google
        update_yahoo).mapOf .PREFETCH_KEY_TYPE_URL).find update_google.primary_key =
        some stored ∧
        CreateResourceData "http://www.google.com/script.js" .RESOURCE_TYPE_SCRIPT 4 0 1 2.1
          .MEDIUM false false ∈ stored.resources) :=
  ⟨by decide, by decide!, by decide, by decide, by decide!, by decide!,
    UpdateData_overwrites sample_fixture.tables_ .PREFETCH_KEY_TYPE_URL sample_google
      update_google update_yahoo _ (by decide) (by decide!) (by decide!)⟩

/-- C4. Score value: the score of a record is `base + 100 - average_position`
with `base = 100` for a stylesheet, a script or a font and `base = 0` for an
image; a record with 11 hits, no miss, no consecutive miss and position 1
scores 199, within 1e-4, as a script, a stylesheet or a font, and 99 as an
image, and the expectations of the test case `ComputeScore` hold. -/
theorem ComputeScore_value (resource_url : String)
    (number_of_hits number_of_misses consecutive_misses : Nat) (average_position : ℚ)
    (priority : RequestPriority) (has_validators always_revalidate : Bool) :
    ComputeScore (CreateResourceData resource_url .RESOURCE_TYPE_STYLESHEET number_of_hits
      number_of_misses consecutive_misses average_position priority has_validators
      always_revalidate) = 100 + 100 - average_position ∧
    ComputeScore (CreateResourceData resource_url .RESOURCE_TYPE_SCRIPT number_of_hits
      number_of_misses consecutive_misses average_position priority has_validators
      always_revalidate) = 100 + 100 - average_position ∧
    ComputeScore (CreateResourceData resource_url .RESOURCE_TYPE_FONT_RESOURCE number_of_hits
      number_of_misses consecutive_misses average_position priority has_validators
      always_revalidate) = 100 + 100 - average_position ∧
    ComputeScore (CreateResourceData resource_url .RESOURCE_TYPE_IMAGE number_of_hits
      number_of_misses consecutive_misses average_position priority has_validators
      always_revalidate) = 0 + 100 - average_position ∧
    |ComputeScore (CreateResourceData resource_url .RESOURCE_TYPE_SCRIPT 11 0 0 1 priority
      has_validators always_revalidate) - 199| ≤ 1 / 10000 ∧
    |ComputeScore (CreateResourceData resource_url .RESOURCE_TYPE_STYLESHEET 11 0 0 1 priority
      has_validators always_revalidate) - 199| ≤ 1 / 10000 ∧
    |ComputeScore (CreateResourceData resource_url .RESOURCE_TYPE_FONT_RESOURCE 11 0 0 1 priority
      has_validators always_revalidate) - 199| ≤ 1 / 10000 ∧
    |ComputeScore (CreateResourceData resource_url .RESOURCE_TYPE_IMAGE 11 0 0 1 priority
      has_validators always_revalidate) - 99| ≤ 1 / 10000 ∧
    ComputeScoreTest = true := by
  refine ⟨?_, ?_, ?_, ?_, ?_, ?_, ?_, ?_, by decide!⟩ <;>
    simp only [ComputeScore, CreateResourceData, is_blocking_category] <;> norm_num

/-- C5. `DeleteData(urls, hosts)` keeps of the URL map exactly the entries
whose key does not occur in `urls`, unchanged and in their order, and of the
host map exactly those whose key does not occur in `hosts`; under a key `k` the
maps then hold nothing when `k` was listed and what they held before otherwise;
keys that are not stored are no-ops, the call with only such keys returning the
state it was given.  On the sample data, deleting two URLs and one host from
three URLs and two hosts leaves exactly `http://www.reddit.com` and
`www.facebook.com`, as `TestDeleteData` expects. -/
theorem DeleteData_removes_listed_keys (tables : ResourcePrefetchPredictorTables)
    (urls hosts : List String) (k : String) :
    (tables.DeleteData urls hosts).GetAllData.1 =
      tables.GetAllData.1.filter (fun p => !urls.contains p.1) ∧
    (tables.DeleteData urls hosts).GetAllData.2 =
      tables.GetAllData.2.filter (fun p => !hosts.contains p.1) ∧
    (tables.DeleteData urls hosts).GetAllData.1.find k =
      (if k ∈ urls then none else tables.GetAllData.1.find k) ∧
    (tables.DeleteData urls hosts).GetAllData.2.find k =
      (if k ∈ hosts then none else tables.GetAllData.2.find k) ∧
    tables.DeleteData (urls.filter (fun u => (tables.url_table.find u).isNone))
      (hosts.filter (fun h => (tables.host_table.find h).isNone)) = tables ∧
    (sample_fixture.tables_.GetAllData.1.map Prod.fst =
        ["http://www.google.com", "http://www.reddit.com", "http://www.yahoo.com"] ∧
      sample_fixture.tables_.GetAllData.2.map Prod.fst = ["www.facebook.com", "www.yahoo.com"] ∧
      (sample_fixture.tables_.DeleteData ["http://www.google.com", "http://www.yahoo.com"]
        ["www.yahoo.com"]).GetAllData =
        ([("http://www.reddit.com", sample_reddit)], [("www.facebook.com", sample_facebook)]) ∧
      TestDeleteData sample_fixture = true) := by
  refine ⟨PrefetchDataMap.foldl_erase_eq_filter urls _,
    PrefetchDataMap.foldl_erase_eq_filter hosts _,
    PrefetchDataMap.find_foldl_erase urls _ k,
    PrefetchDataMap.find_foldl_erase hosts _ k, ?_, by decide!⟩
  show ResourcePrefetchPredictorTables.mk _ _ _ = tables
  rw [foldl_erase_of_absent _ tables.url_table (by
        intro key hk
        simpa using (List.mem_filter.1 hk).2),
    foldl_erase_of_absent _ tables.host_table (by
        intro key hk
        simpa using (List.mem_filter.1 hk).2)]

/-- C6. `DeleteSingleDataPoint(key, key_type)` removes the aggregate stored
under `key` in the map selected by `key_type` and changes nothing else: under a
key `k` that map holds nothing for `k = key` and what it held before otherwise,
the other map is unchanged, when `key` is absent the whole state is unchanged,
and calling it twice yields the same state as calling it once. -/
theorem DeleteSingleDataPoint_frame (tables : ResourcePrefetchPredictorTables)
    (key : String) (key_type : PrefetchKeyType) (k : String) :
    ((tables.DeleteSingleDataPoint key key_type).mapOf key_type).find k =
      (if k = key then none else (tables.mapOf key_type).find k) ∧
    (tables.DeleteSingleDataPoint key key_type).mapOf key_type.other =
      tables.mapOf key_type.other ∧
    ((tables.mapOf key_type).find key = none →
      tables.DeleteSingleDataPoint key key_type = tables) ∧
    (tables.DeleteSingleDataPoint key key_type).DeleteSingleDataPoint key key_type =
      tables.DeleteSingleDataPoint key key_type ∧
    ((tables.DeleteSingleDataPoint key key_type).DeleteSingleDataPoint key key_type).GetAllData =
      (tables.DeleteSingleDataPoint key key_type).GetAllData := by
  have idem : (tables.DeleteSingleDataPoint key key_type).DeleteSingleDataPoint key key_type =
      tables.DeleteSingleDataPoint key key_type := by
    cases key_type <;>
      simp [DeleteSingleDataPoint, PrefetchDataMap.erase_erase]
  refine ⟨?_, ?_, ?_, idem, by rw [idem]⟩
  · cases key_type <;> exact PrefetchDataMap.find_erase _ key k
  · cases key_type <;> rfl
  · intro h
    cases key_type <;>
      simp only [DeleteSingleDataPoint, mapOf] at h ⊢ <;>
      rw [PrefetchDataMap.erase_of_find_none _ key h]

/-- Witness of C6 on the sample data: `www.yahoo.com` is a host but not a URL
key, so deleting it as a URL changes nothing. -/
theorem DeleteSingleDataPoint_frame_witness :
    (sample_fixture.tables_.mapOf .PREFETCH_KEY_TYPE_URL).find "www.yahoo.com" = none ∧
    sample_fixture.tables_.DeleteSingleDataPoint "www.yahoo.com" .PREFETCH_KEY_TYPE_URL =
      sample_fixture.tables_ ∧
    TestDeleteSingleDataPoint sample_fixture = true :=
  ⟨by decide!,
    (DeleteSingleDataPoint_frame sample_fixture.tables_ "www.yahoo.com" .PREFETCH_KEY_TYPE_URL
      "www.yahoo.com").2.2.1 (by decide!),
    by decide!⟩

/-- C7. `UpdateData` skips an aggregate whose primary key is the empty string:
for every state, a call with an empty-keyed host aggregate leaves the host map
unchanged and a call with an empty-keyed URL aggregate leaves the URL map
unchanged, and after any sequence of calls on a cleared store neither map
returned by `GetAllData` has an entry under the empty key.  After the five such
calls of `InitializeSampleData` the maps hold exactly three URL entries and two
host entries, equal to the expected maps. -/
theorem UpdateData_skips_empty_key (tables : ResourcePrefetchPredictorTables)
    (A B : PrefetchData) (key_type : PrefetchKeyType) (last_visit : Int)
    (resources : List ResourceData) (calls : List Call) :
    (tables.UpdateData A
      { key_type := key_type, primary_key := "", last_visit := last_visit,
        resources := resources }).GetAllData.2 = tables.GetAllData.2 ∧
    (tables.UpdateData
      { key_type := key_type, primary_key := "", last_visit := last_visit,
        resources := resources } B).GetAllData.1 = tables.GetAllData.1 ∧
    (runCalls calls tables.DeleteAllData).GetAllData.1.find "" = none ∧
    (runCalls calls tables.DeleteAllData).GetAllData.2.find "" = none ∧
    (empty_host_data.primary_key = "" ∧ empty_url_data.primary_key = "" ∧
      sample_fixture.tables_.GetAllData.1.length = 3 ∧
      sample_fixture.tables_.GetAllData.2.length = 2 ∧
      TestGetAllData sample_fixture = true) := by
  refine ⟨rfl, rfl, ?_, ?_, by decide!⟩
  · exact (runCalls_keeps_no_empty_key calls tables.DeleteAllData ⟨rfl, rfl⟩).1
  · exact (runCalls_keeps_no_empty_key calls tables.DeleteAllData ⟨rfl, rfl⟩).2

/-- C8. For every state, `DeleteAllData()` followed by `GetAllData()` returns
an empty URL map and an empty host map; the expectations of
`TestDeleteAllData` hold on every fixture. -/
theorem DeleteAllData_GetAllData_empty (tables : ResourcePrefetchPredictorTables)
    (t : ResourcePrefetchPredictorTablesTest) :
    tables.DeleteAllData.GetAllData = ([], []) ∧ TestDeleteAllData t = true :=
  ⟨rfl, rfl⟩

/-- C9. Schema reset: if the stored schema version is not `kDatabaseVersion`,
opening the store discards all persisted aggregates, so that `GetAllData`
returns two empty maps, and the stored version reads back as
`kDatabaseVersion`; with the stored version `kDatabaseVersion + 1` this is the
test case `DatabaseIsResetWhenIncompatible`, whose expectations hold on every
fixture `t`. -/
theorem Open_resets_incompatible_version (kDatabaseVersion : Int) (db : PredictorDatabase)
    (t : ResourcePrefetchPredictorTablesTest)
    (h : db.GetDatabaseVersion ≠ some kDatabaseVersion) :
    (PredictorDatabase.Open kDatabaseVersion db).resource_prefetch_tables.GetAllData = ([], []) ∧
    (PredictorDatabase.Open kDatabaseVersion db).GetDatabaseVersion = some kDatabaseVersion ∧
    DatabaseIsResetWhenIncompatible kDatabaseVersion t = true := by
  have hne : kDatabaseVersion + 1 ≠ kDatabaseVersion := by omega
  have hreset := Open_of_version_ne kDatabaseVersion
    (t.db_.SetDatabaseVersion (kDatabaseVersion + 1)).2
    (fun e => hne (Option.some.inj e))
  rw [Open_of_version_ne kDatabaseVersion db h]
  refine ⟨rfl, rfl, ?_⟩
  simp only [DatabaseIsResetWhenIncompatible, ReopenDatabase, hreset]
  simp [PredictorDatabase.SetDatabaseVersion, PredictorDatabase.GetDatabaseVersion, tables_,
    GetAllData]

/-- Witness of C9: the sample data with the stored version set to
`kDatabaseVersion + 1`, as in the test case `DatabaseIsResetWhenIncompatible`,
whose expectations hold. -/
theorem Open_resets_incompatible_version_witness :
    (sample_fixture.db_.SetDatabaseVersion (sample_kDatabaseVersion + 1)).2.GetDatabaseVersion ≠
      some sample_kDatabaseVersion ∧
    ((PredictorDatabase.Open sample_kDatabaseVersion
        (sample_fixture.db_.SetDatabaseVersion
          (sample_kDatabaseVersion + 1)).2).resource_prefetch_tables.GetAllData = ([], []) ∧
      (PredictorDatabase.Open sample_kDatabaseVersion
        (sample_fixture.db_.SetDatabaseVersion
          (sample_kDatabaseVersion + 1)).2).GetDatabaseVersion = some sample_kDatabaseVersion ∧
      DatabaseIsResetWhenIncompatible sample_kDatabaseVersion sample_fixture = true) :=
  ⟨by decide,
    Open_resets_incompatible_version sample_kDatabaseVersion
      (sample_fixture.db_.SetDatabaseVersion (sample_kDatabaseVersion + 1)).2 sample_fixture
      (by decide)⟩

/-- C10. Reopening at the current version: when the stored schema version is
`kDatabaseVersion`, opening the store again changes nothing: the store is the
same, `GetAllData` returns the same URL and host aggregates as before, and the
stored version is still `kDatabaseVersion`.  An opened store is at the current
version, so opening is idempotent, and the fixture of the reopen tests, on any
profile, is the fixture of the plain tests. -/
theorem Open_at_current_version_unchanged (kDatabaseVersion : Int)
    (db profile : PredictorDatabase) (h : db.GetDatabaseVersion = some kDatabaseVersion) :
    PredictorDatabase.Open kDatabaseVersion db = db ∧
    (PredictorDatabase.Open kDatabaseVersion db).resource_prefetch_tables.GetAllData =
      db.resource_prefetch_tables.GetAllData ∧
    (PredictorDatabase.Open kDatabaseVersion db).GetDatabaseVersion = some kDatabaseVersion ∧
    PredictorDatabase.Open kDatabaseVersion (PredictorDatabase.Open kDatabaseVersion profile) =
      PredictorDatabase.Open kDatabaseVersion profile ∧
    (create kDatabaseVersion profile).ReopenTest_SetUp kDatabaseVersion =
      (create kDatabaseVersion profile).SetUp := by
  rw [Open_of_version_eq kDatabaseVersion db h]
  refine ⟨rfl, rfl, h,
    Open_of_version_eq _ _ (Open_version kDatabaseVersion profile), ?_⟩
  have hv : (create kDatabaseVersion profile).SetUp.db_.version = some kDatabaseVersion := by
    rw [SetUp_version]
    exact Open_version kDatabaseVersion profile
  unfold ReopenTest_SetUp ReopenDatabase
  rw [Open_of_version_eq _ _ hv]

/-- Witness of C10: the sample data written by `SetUp()` is at the current
version; after the reopening of `ResourcePrefetchPredictorTablesReopenTest` the
expectations of `TestGetAllData` and `DatabaseVersionIsSet` hold. -/
theorem Open_at_current_version_unchanged_witness :
    sample_fixture.db_.GetDatabaseVersion = some sample_kDatabaseVersion ∧
    PredictorDatabase.Open sample_kDatabaseVersion sample_fixture.db_ = sample_fixture.db_ ∧
    (PredictorDatabase.Open sample_kDatabaseVersion
      sample_fixture.db_).resource_prefetch_tables.GetAllData =
      sample_fixture.db_.resource_prefetch_tables.GetAllData ∧
    (PredictorDatabase.Open sample_kDatabaseVersion sample_fixture.db_).GetDatabaseVersion =
      some sample_kDatabaseVersion ∧
    sample_reopen_fixture = sample_fixture ∧
    TestGetAllData sample_reopen_fixture = true ∧
    DatabaseVersionIsSet sample_kDatabaseVersion sample_reopen_fixture = true :=
  ⟨by decide,
    (Open_at_current_version_unchanged sample_kDatabaseVersion sample_fixture.db_
      (PredictorDatabase.fresh sample_max_entries) (by decide)).1,
    (Open_at_current_version_unchanged sample_kDatabaseVersion sample_fixture.db_
      (PredictorDatabase.fresh sample_max_entries) (by decide)).2.1,
    (Open_at_current_version_unchanged sample_kDatabaseVersion sample_fixture.db_
      (PredictorDatabase.fresh sample_max_entries) (by decide)).2.2.1,
    by decide!, by decide!, by decide!⟩

end predictors

/-! # Lemmas on maps with integer keys -/

theorem lookup_cons_int {β : Type} (p : Int × β) (m : List (Int × β)) (k : Int) :
    List.lookup k (p :: m) = if k = p.1 then some p.2 else List.lookup k m := by
  obtain ⟨a, b⟩ := p
  by_cases h : k = a
  · subst h; simp [List.lookup]
  · have : (k == a) = false := by simpa using h
    simp [List.lookup, this, h]

theorem lookup_append_int {β : Type} (m₁ m₂ : List (Int × β)) (k : Int) :
    List.lookup k (m₁ ++ m₂) = (List.lookup k m₁).orElse (fun _ => List.lookup k m₂) := by
  induction m₁ with
  | nil => simp
  | cons p m ih =>
    rw [List.cons_append, lookup_cons_int, lookup_cons_int, ih]
    split <;> simp

theorem lookup_filter_ne_int {β : Type} (m : List (Int × β)) (key k : Int) :
    List.lookup k (m.filter (fun p => decide (p.1 ≠ key))) =
      if k = key then none else List.lookup k m := by
  induction m with
  | nil => simp
  | cons p m ih =>
    by_cases hp : p.1 = key
    · rw [List.filter_cons_of_neg (by simp [hp]), ih, lookup_cons_int]
      by_cases hk : k = key
      · simp [hk]
      · have : k ≠ p.1 := by rw [hp]; exact hk
        simp [hk, this]
    · rw [List.filter_cons_of_pos (by simpa using hp), lookup_cons_int, lookup_cons_int, ih]
      by_cases hk : k = key
      · have : key ≠ p.1 := fun e => hp e.symm
        simp [hk, this]
      · simp [hk]

theorem lookup_assign_int {β : Type} (m : List (Int × β)) (key k : Int) (v : β) :
    List.lookup k (m.map (fun p => if p.1 = key then (p.1, v) else p)) =
      if k = key then (List.lookup key m).map (fun _ => v) else List.lookup k m := by
  induction m with
  | nil => simp
  | cons p m ih =>
    rw [List.map_cons, lookup_cons_int, ih]
    simp only [lookup_cons_int]
    by_cases hp : p.1 = key
    · by_cases hk : k = key
      · simp [hp, hk]
      · have : k ≠ p.1 := by rw [hp]; exact hk
        simp [hp, hk, this]
    · by_cases hk : k = key
      · have h2 : key ≠ p.1 := fun e => hp e.symm
        simp [hp, hk, h2]
      · simp [hp, hk]

theorem map_fst_assign_int {β : Type} (m : List (Int × β)) (key : Int) (v : β) :
    (m.map (fun p => if p.1 = key then (p.1, v) else p)).map Prod.fst = m.map Prod.fst := by
  induction m with
  | nil => rfl
  | cons p m ih =>
    rw [List.map_cons, List.map_cons, List.map_cons, ih]
    by_cases hp : p.1 = key <;> simp [hp]

theorem filter_ne_of_lookup_none_int {β : Type} (m : List (Int × β)) (key : Int)
    (h : List.lookup key m = none) : m.filter (fun p => decide (p.1 ≠ key)) = m := by
  induction m with
  | nil => rfl
  | cons p m ih =>
    rw [lookup_cons_int] at h
    by_cases hp : key = p.1
    · simp [hp] at h
    · simp only [hp, if_false] at h
      rw [List.filter_cons_of_pos (by simpa using fun e => hp e.symm), ih h]

/-! # The in-memory request queue store: lemmas and claims -/

namespace offline_pages

open RequestQueueInMemoryStore

theorem RemoveRequests_snoc {Fields : Type} (store : RequestQueueInMemoryStore Fields)
    (request_ids : List Int) (request_id : Int) :
    store.RemoveRequests (request_ids ++ [request_id]) =
      RemoveRequestsStep (store.RemoveRequests request_ids) request_id := by
  unfold RemoveRequests
  rw [List.foldl_append]
  rfl

theorem RemoveRequestsStep_results {Fields : Type}
    (acc : RequestQueueInMemoryStore Fields × RemoveRequestsResult Fields) (request_id : Int) :
    (RemoveRequestsStep acc request_id).2.results.map Prod.fst =
      acc.2.results.map Prod.fst ++ [request_id] := by
  unfold RemoveRequestsStep
  split <;> simp

theorem RemoveRequests_results_ids {Fields : Type} (store : RequestQueueInMemoryStore Fields)
    (request_ids : List Int) :
    (store.RemoveRequests request_ids).2.results.map Prod.fst = request_ids := by
  induction request_ids using List.reverseRecOn with
  | nil => rfl
  | append_singleton ids id ih =>
    rw [RemoveRequests_snoc, RemoveRequestsStep_results, ih]

theorem RemoveRequestsStep_find {Fields : Type}
    (acc : RequestQueueInMemoryStore Fields × RemoveRequestsResult Fields)
    (request_id k : Int) :
    (RemoveRequestsStep acc request_id).1.requests_.find k =
      if k = request_id then none else acc.1.requests_.find k := by
  unfold RemoveRequestsStep
  split
  · exact lookup_filter_ne_int _ request_id k
  · next h =>
    by_cases hk : k = request_id
    · rw [if_pos hk, hk]; exact h
    · rw [if_neg hk]

theorem UpdateRequestsStep_storedIds {Fields : Type}
    (acc : RequestQueueInMemoryStore Fields × UpdateRequestsResult Fields)
    (request : SavePageRequest Fields) :
    (UpdateRequestsStep acc request).1.storedIds = acc.1.storedIds := by
  unfold UpdateRequestsStep
  split
  · exact map_fst_assign_int _ _ _
  · rfl

theorem UpdateRequestsStep_find {Fields : Type}
    (acc : RequestQueueInMemoryStore Fields × UpdateRequestsResult Fields)
    (request : SavePageRequest Fields) (k : Int) :
    (UpdateRequestsStep acc request).1.requests_.find k =
      if k = request.request_id then (acc.1.requests_.find k).map (fun _ => request)
      else acc.1.requests_.find k := by
  unfold UpdateRequestsStep
  split
  · next old h =>
    show List.lookup k (acc.1.requests_.map _) = _
    rw [lookup_assign_int]
    by_cases hk : k = request.request_id
    · rw [if_pos hk, if_pos hk, hk]; rfl
    · rw [if_neg hk, if_neg hk]; rfl
  · next h =>
    by_cases hk : k = request.request_id
    · rw [if_pos hk, hk, h]; rfl
    · rw [if_neg hk]

theorem UpdateRequestsStep_isSome {Fields : Type}
    (acc : RequestQueueInMemoryStore Fields × UpdateRequestsResult Fields)
    (request : SavePageRequest Fields) (k : Int) :
    ((UpdateRequestsStep acc request).1.requests_.find k).isSome =
      (acc.1.requests_.find k).isSome := by
  rw [UpdateRequestsStep_find]
  split
  · cases acc.1.requests_.find k <;> rfl
  · rfl

theorem UpdateRequests_foldl {Fields : Type} (requests : List (SavePageRequest Fields))
    (acc : RequestQueueInMemoryStore Fields × UpdateRequestsResult Fields) :
    (requests.foldl UpdateRequestsStep acc).1.storedIds = acc.1.storedIds ∧
    (∀ k, ((requests.foldl UpdateRequestsStep acc).1.requests_.find k).isSome =
      (acc.1.requests_.find k).isSome) ∧
    (requests.foldl UpdateRequestsStep acc).2.item_statuses =
      acc.2.item_statuses ++ requests.map (fun r =>
        (r.request_id,
          if (acc.1.requests_.find r.request_id).isSome then ItemActionStatus.SUCCESS
          else ItemActionStatus.NOT_FOUND)) ∧
    (requests.foldl UpdateRequestsStep acc).2.updated_items =
      acc.2.updated_items ++
        requests.filter (fun r => (acc.1.requests_.find r.request_id).isSome) ∧
    (requests.foldl UpdateRequestsStep acc).2.store_state = acc.2.store_state := by
  induction requests generalizing acc with
  | nil => simp
  | cons r rs ih =>
    rw [List.foldl_cons]
    obtain ⟨h1, h2, h3, h4, h5⟩ := ih (UpdateRequestsStep acc r)
    have hs : ∀ k, ((UpdateRequestsStep acc r).1.requests_.find k).isSome =
        (acc.1.requests_.find k).isSome := UpdateRequestsStep_isSome acc r
    refine ⟨by rw [h1, UpdateRequestsStep_storedIds], fun k => by rw [h2, hs], ?_, ?_, ?_⟩
    · rw [h3]
      simp only [hs, List.map_cons]
      unfold UpdateRequestsStep
      cases h : acc.1.requests_.find r.request_id <;> simp
    · rw [h4]
      simp only [hs]
      unfold UpdateRequestsStep
      cases h : acc.1.requests_.find r.request_id <;> simp [List.filter_cons, h]
    · rw [h5]

theorem UpdateRequests_snoc {Fields : Type} (store : RequestQueueInMemoryStore Fields)
    (requests : List (SavePageRequest Fields)) (request : SavePageRequest Fields) :
    store.UpdateRequests (requests ++ [request]) =
      UpdateRequestsStep (store.UpdateRequests requests) request := by
  unfold UpdateRequests
  rw [List.foldl_append]
  rfl

/-- C11. `RemoveRequests` processes `request_ids` in order and reports exactly
one result per element: the ids of the results are `request_ids`.  For an
element `request_id` that follows `request_ids`: if the id is stored at that
moment, the result `SUCCESS` is appended, a copy of the stored request is
appended to the returned requests and the id is erased from the store;
otherwise `REQUEST_DOES_NOT_EXIST` is appended and the store and the returned
requests are unchanged.  Every other id `k` is stored afterwards as before,
and an id that is repeated at once fails the second time. -/
theorem RemoveRequests_processes_in_order {Fields : Type}
    (store : RequestQueueInMemoryStore Fields) (request_ids : List Int) (request_id k : Int) :
    (store.RemoveRequests request_ids).2.results.map Prod.fst = request_ids ∧
    (store.RemoveRequests request_ids).2.results.length = request_ids.length ∧
    (∀ request, (store.RemoveRequests request_ids).1.requests_.find request_id = some request →
      (store.RemoveRequests (request_ids ++ [request_id])).2.results =
        (store.RemoveRequests request_ids).2.results ++
          [(request_id, UpdateRequestResult.SUCCESS)] ∧
      (store.RemoveRequests (request_ids ++ [request_id])).2.requests =
        (store.RemoveRequests request_ids).2.requests ++ [request] ∧
      (store.RemoveRequests (request_ids ++ [request_id])).1.requests_ =
        (store.RemoveRequests request_ids).1.requests_.erase request_id) ∧
    ((store.RemoveRequests request_ids).1.requests_.find request_id = none →
      (store.RemoveRequests (request_ids ++ [request_id])).2.results =
        (store.RemoveRequests request_ids).2.results ++
          [(request_id, UpdateRequestResult.REQUEST_DOES_NOT_EXIST)] ∧
      (store.RemoveRequests (request_ids ++ [request_id])).2.requests =
        (store.RemoveRequests request_ids).2.requests ∧
      (store.RemoveRequests (request_ids ++ [request_id])).1 =
        (store.RemoveRequests request_ids).1) ∧
    (store.RemoveRequests (request_ids ++ [request_id])).1.requests_.find k =
      (if k = request_id then none
        else (store.RemoveRequests request_ids).1.requests_.find k) ∧
    (store.RemoveRequests ((request_ids ++ [request_id]) ++ [request_id])).2.results =
      (store.RemoveRequests (request_ids ++ [request_id])).2.results ++
        [(request_id, UpdateRequestResult.REQUEST_DOES_NOT_EXIST)] ∧
    (store.RemoveRequests ((request_ids ++ [request_id]) ++ [request_id])).1 =
      (store.RemoveRequests (request_ids ++ [request_id])).1 := by
  have hnone : (store.RemoveRequests (request_ids ++ [request_id])).1.requests_.find request_id =
      none := by
    rw [RemoveRequests_snoc, RemoveRequestsStep_find, if_pos rfl]
  refine ⟨RemoveRequests_results_ids store request_ids, ?_, ?_, ?_, ?_, ?_, ?_⟩
  · have := congrArg List.length (RemoveRequests_results_ids store request_ids)
    simpa using this
  · intro request h
    rw [RemoveRequests_snoc]
    unfold RemoveRequestsStep
    rw [h]
    exact ⟨rfl, rfl, rfl⟩
  · intro h
    rw [RemoveRequests_snoc]
    unfold RemoveRequestsStep
    rw [h]
    exact ⟨rfl, rfl, rfl⟩
  · rw [RemoveRequests_snoc, RemoveRequestsStep_find]
  · rw [RemoveRequests_snoc store (request_ids ++ [request_id])]
    unfold RemoveRequestsStep
    rw [hnone]
  · rw [RemoveRequests_snoc store (request_ids ++ [request_id])]
    unfold RemoveRequestsStep
    rw [hnone]

/-- Witness of C11 on the sample store, which holds the requests 1 and 2: after
the ids 3 and 1 were processed, 2 is still stored and succeeds, and 3 is not
stored and fails; the whole call with the ids 3, 1, 2, 1 reports one result
per id and returns the requests 1 and 2. -/
theorem RemoveRequests_processes_in_order_witness :
    (sample_store.RemoveRequests [3, 1]).1.requests_.find 2 =
      some { request_id := 2, fields := "http://b" } ∧
    (sample_store.RemoveRequests ([3, 1] ++ [2])).2.results =
      (sample_store.RemoveRequests [3, 1]).2.results ++ [(2, UpdateRequestResult.SUCCESS)] ∧
    (sample_store.RemoveRequests [3, 1]).1.requests_.find 3 = none ∧
    (sample_store.RemoveRequests ([3, 1] ++ [3])).1 = (sample_store.RemoveRequests [3, 1]).1 ∧
    (sample_store.RemoveRequests [3, 1, 2, 1]).2 =
      { results :=
          [(3, UpdateRequestResult.REQUEST_DOES_NOT_EXIST), (1, UpdateRequestResult.SUCCESS),
            (2, UpdateRequestResult.SUCCESS), (1, UpdateRequestResult.REQUEST_DOES_NOT_EXIST)]
        requests :=
          [{ request_id := 1, fields := "http://a" }, { request_id := 2, fields := "http://b" }] } ∧
    (sample_store.RemoveRequests [3, 1, 2, 1]).1.requests_ = [] :=
  ⟨by decide,
    ((RemoveRequests_processes_in_order sample_store [3, 1] 2 2).2.2.1
      { request_id := 2, fields := "http://b" } (by decide)).1,
    by decide,
    ((RemoveRequests_processes_in_order sample_store [3, 1] 3 3).2.2.2.1 (by decide)).2.2,
    by decide, by decide⟩

/-- C12. `AddRequest(r)`: when no request with the id of `r` is stored, it
reports `SUCCESS` and stores `r` under that id, every other id `k` being stored
as before; when one is stored already, it reports `ALREADY_EXISTS` and leaves
the store unchanged, so that the existing request is not overwritten. -/
theorem AddRequest_reports_and_stores {Fields : Type}
    (store : RequestQueueInMemoryStore Fields) (request : SavePageRequest Fields) (k : Int) :
    (store.requests_.find request.request_id = none →
      (store.AddRequest request).2 = ItemActionStatus.SUCCESS ∧
      (store.AddRequest request).1.requests_.find request.request_id = some request ∧
      (store.AddRequest request).1.requests_.find k =
        (if k = request.request_id then some request else store.requests_.find k)) ∧
    (∀ existing, store.requests_.find request.request_id = some existing →
      (store.AddRequest request).2 = ItemActionStatus.ALREADY_EXISTS ∧
      (store.AddRequest request).1 = store ∧
      (store.AddRequest request).1.requests_.find request.request_id = some existing) := by
  constructor
  · intro h
    have hfind : ∀ k', (store.AddRequest request).1.requests_.find k' =
        (if k' = request.request_id then some request else store.requests_.find k') := by
      intro k'
      unfold AddRequest
      rw [h]
      show List.lookup k' (store.requests_ ++ [(request.request_id, request)]) = _
      rw [lookup_append_int, lookup_cons_int]
      by_cases hk : k' = request.request_id
      · rw [if_pos hk, hk]
        have : List.lookup request.request_id store.requests_ = none := h
        rw [this]; simp
      · simp only [hk, if_false]
        show (List.lookup k' store.requests_).orElse _ = List.lookup k' store.requests_
        cases List.lookup k' store.requests_ <;> rfl
    refine ⟨?_, ?_, hfind k⟩
    · unfold AddRequest; rw [h]
    · rw [hfind, if_pos rfl]
  · intro existing h
    have hs : store.AddRequest request = (store, ItemActionStatus.ALREADY_EXISTS) := by
      unfold AddRequest; rw [h]
    rw [hs]
    exact ⟨rfl, rfl, h⟩

/-- Witness of C12 on the sample store, which holds the requests 1 and 2: a
request with the id 3 is added, a second request with the id 1 is refused. -/
theorem AddRequest_reports_and_stores_witness :
    sample_store.requests_.find 3 = none ∧
    (sample_store.AddRequest { request_id := 3, fields := "http://c" }).2 =
      ItemActionStatus.SUCCESS ∧
    sample_store.requests_.find 1 = some { request_id := 1, fields := "http://a" } ∧
    (sample_store.AddRequest { request_id := 1, fields := "http://other" }).2 =
      ItemActionStatus.ALREADY_EXISTS ∧
    (sample_store.AddRequest { request_id := 1, fields := "http://other" }).1 = sample_store :=
  ⟨by decide,
    ((AddRequest_reports_and_stores sample_store { request_id := 3, fields := "http://c" }
      3).1 (by decide)).1,
    by decide,
    ((AddRequest_reports_and_stores sample_store { request_id := 1, fields := "http://other" }
      1).2 { request_id := 1, fields := "http://a" } (by decide)).1,
    ((AddRequest_reports_and_stores sample_store { request_id := 1, fields := "http://other" }
      1).2 { request_id := 1, fields := "http://a" } (by decide)).2.1⟩

/-- C13. `UpdateRequests` never changes the stored request ids: the ids of the
entries are the same list afterwards.  For each input request, in order, it
reports `SUCCESS` when the id is stored and `NOT_FOUND` when it is not, the
updated items being the requests whose id is stored; a request `request` that
follows `requests` replaces what is stored under its id when the id is stored
and inserts nothing when it is not, every other id `k` being stored as
before. -/
theorem UpdateRequests_keeps_stored_ids {Fields : Type}
    (store : RequestQueueInMemoryStore Fields) (requests : List (SavePageRequest Fields))
    (request : SavePageRequest Fields) (k : Int) :
    (store.UpdateRequests requests).1.storedIds = store.storedIds ∧
    (store.UpdateRequests requests).2.item_statuses =
      requests.map (fun r =>
        (r.request_id,
          if (store.requests_.find r.request_id).isSome then ItemActionStatus.SUCCESS
          else ItemActionStatus.NOT_FOUND)) ∧
    (store.UpdateRequests requests).2.updated_items =
      requests.filter (fun r => (store.requests_.find r.request_id).isSome) ∧
    (store.UpdateRequests requests).2.store_state = StoreState.LOADED ∧
    (store.UpdateRequests (requests ++ [request])).1.requests_.find request.request_id =
      (if (store.requests_.find request.request_id).isSome then some request else none) ∧
    (store.UpdateRequests (requests ++ [request])).1.requests_.find k =
      (if k = request.request_id then
        ((store.UpdateRequests requests).1.requests_.find k).map (fun _ => request)
      else (store.UpdateRequests requests).1.requests_.find k) := by
  obtain ⟨h1, h2, h3, h4, h5⟩ := UpdateRequests_foldl requests
    (store, { store_state := store.state, item_statuses := [], updated_items := [] })
  refine ⟨h1, by simpa using h3, by simpa using h4, h5, ?_, ?_⟩
  · rw [UpdateRequests_snoc, UpdateRequestsStep_find, if_pos rfl]
    have hs := h2 request.request_id
    change ((store.UpdateRequests requests).1.requests_.find request.request_id).isSome =
      (store.requests_.find request.request_id).isSome at hs
    rw [← hs]
    cases (store.UpdateRequests requests).1.requests_.find request.request_id <;> rfl
  · rw [UpdateRequests_snoc, UpdateRequestsStep_find]

end offline_pages

/-! # Plugin content settings: claims -/

namespace plugin_utils

/-- C18. Plugin content-setting precedence: when the JavaScript setting is not
used, `GetPluginContentSettingInternal` returns the plugin-specific setting
exactly when a plugin-specific setting exists and the general plugins setting
does not come from policy, and the general setting in every other case;
`GetFlashPluginContentSetting` is that choice for the resource
`adobe-flash-player`. -/
theorem GetPluginContentSettingInternal_precedence {Value Pattern ContentSetting : Type}
    [DecidableEq Pattern] (ValueToContentSetting : Option Value → ContentSetting)
    (Wildcard : Pattern) (host_content_settings_map : HostContentSettingsMap Value Pattern)
    (policy_url plugin_url : GURL) (resource : String)
    (want_uses_default_content_setting want_is_managed : Bool) :
    (GetPluginContentSettingInternal ValueToContentSetting Wildcard host_content_settings_map
      false policy_url plugin_url resource want_uses_default_content_setting
      want_is_managed).setting =
      ValueToContentSetting
        (if (host_content_settings_map.GetWebsiteSetting policy_url plugin_url
              .CONTENT_SETTINGS_TYPE_PLUGINS resource).1.isSome = true ∧
            (host_content_settings_map.GetWebsiteSetting policy_url plugin_url
              .CONTENT_SETTINGS_TYPE_PLUGINS "").2.source ≠ .SETTING_SOURCE_POLICY then
          (host_content_settings_map.GetWebsiteSetting policy_url plugin_url
            .CONTENT_SETTINGS_TYPE_PLUGINS resource).1
        else
          (host_content_settings_map.GetWebsiteSetting policy_url plugin_url
            .CONTENT_SETTINGS_TYPE_PLUGINS "").1) ∧
    ((host_content_settings_map.GetWebsiteSetting policy_url plugin_url
        .CONTENT_SETTINGS_TYPE_PLUGINS resource).1 = none ∨
      (host_content_settings_map.GetWebsiteSetting policy_url plugin_url
        .CONTENT_SETTINGS_TYPE_PLUGINS "").2.source = .SETTING_SOURCE_POLICY →
      (GetPluginContentSettingInternal ValueToContentSetting Wildcard host_content_settings_map
        false policy_url plugin_url resource want_uses_default_content_setting
        want_is_managed).setting =
        ValueToContentSetting
          (host_content_settings_map.GetWebsiteSetting policy_url plugin_url
            .CONTENT_SETTINGS_TYPE_PLUGINS "").1) ∧
    GetFlashPluginContentSetting ValueToContentSetting Wildcard host_content_settings_map
      policy_url plugin_url =
      ValueToContentSetting
        (if (host_content_settings_map.GetWebsiteSetting policy_url plugin_url
              .CONTENT_SETTINGS_TYPE_PLUGINS kFlashPluginID).1.isSome = true ∧
            (host_content_settings_map.GetWebsiteSetting policy_url plugin_url
              .CONTENT_SETTINGS_TYPE_PLUGINS "").2.source ≠ .SETTING_SOURCE_POLICY then
          (host_content_settings_map.GetWebsiteSetting policy_url plugin_url
            .CONTENT_SETTINGS_TYPE_PLUGINS kFlashPluginID).1
        else
          (host_content_settings_map.GetWebsiteSetting policy_url plugin_url
            .CONTENT_SETTINGS_TYPE_PLUGINS "").1) := by
  have key : ∀ (res : String) (w1 w2 : Bool),
      (GetPluginContentSettingInternal ValueToContentSetting Wildcard host_content_settings_map
        false policy_url plugin_url res w1 w2).setting =
      ValueToContentSetting
        (if (host_content_settings_map.GetWebsiteSetting policy_url plugin_url
              .CONTENT_SETTINGS_TYPE_PLUGINS res).1.isSome = true ∧
            (host_content_settings_map.GetWebsiteSetting policy_url plugin_url
              .CONTENT_SETTINGS_TYPE_PLUGINS "").2.source ≠ .SETTING_SOURCE_POLICY then
          (host_content_settings_map.GetWebsiteSetting policy_url plugin_url
            .CONTENT_SETTINGS_TYPE_PLUGINS res).1
        else
          (host_content_settings_map.GetWebsiteSetting policy_url plugin_url
            .CONTENT_SETTINGS_TYPE_PLUGINS "").1) := by
    intro res w1 w2
    simp only [GetPluginContentSettingInternal, Bool.false_eq_true, if_false, Bool.and_eq_true,
      decide_eq_true_eq]
    split <;> rfl
  refine ⟨key resource _ _, ?_, key kFlashPluginID false false⟩
  intro h
  rw [key]
  rcases h with h | h
  · rw [if_neg (by rw [h]; simp)]
  · rw [if_neg (fun hc => hc.2 h)]

/-- Witness of C18 on the sample map: the Flash plugin has the user setting
"block" and the general setting is "allow"; with the general setting from
policy the result is "allow", with the general setting from the user it is
"block". -/
theorem GetPluginContentSettingInternal_precedence_witness :
    (((sample_map .SETTING_SOURCE_POLICY).GetWebsiteSetting "http://example.com"
        "http://example.com/flash.swf" .CONTENT_SETTINGS_TYPE_PLUGINS kFlashPluginID).1 = none ∨
      ((sample_map .SETTING_SOURCE_POLICY).GetWebsiteSetting "http://example.com"
        "http://example.com/flash.swf" .CONTENT_SETTINGS_TYPE_PLUGINS "").2.source =
        .SETTING_SOURCE_POLICY) ∧
    (GetPluginContentSettingInternal sample_ValueToContentSetting "*"
      (sample_map .SETTING_SOURCE_POLICY) false "http://example.com"
      "http://example.com/flash.swf" kFlashPluginID true true).setting =
      sample_ValueToContentSetting
        ((sample_map .SETTING_SOURCE_POLICY).GetWebsiteSetting "http://example.com"
          "http://example.com/flash.swf" .CONTENT_SETTINGS_TYPE_PLUGINS "").1 ∧
    GetFlashPluginContentSetting sample_ValueToContentSetting "*"
      (sample_map .SETTING_SOURCE_POLICY) "http://example.com"
      "http://example.com/flash.swf" = "allow" ∧
    GetFlashPluginContentSetting sample_ValueToContentSetting "*"
      (sample_map .SETTING_SOURCE_USER) "http://example.com"
      "http://example.com/flash.swf" = "block" :=
  ⟨Or.inr (by decide),
    (GetPluginContentSettingInternal_precedence sample_ValueToContentSetting "*"
      (sample_map .SETTING_SOURCE_POLICY) "http://example.com" "http://example.com/flash.swf"
      kFlashPluginID true true).2.1 (Or.inr (by decide)),
    by decide, by decide⟩

end plugin_utils

/-! # Alternate protocols: claims -/

namespace net

/-- C19. `AlternateProtocolFromString` accepts the legacy persisted names: it
returns `QUIC` for "quic", `NPN_HTTP_2` for each of "h2", "npn-h2" and
"npn-spdy/3.1", and `UNINITIALIZED_ALTERNATE_PROTOCOL` for every other string,
and for no one of these four. -/
theorem AlternateProtocolFromString_legacy_names (str : String) :
    AlternateProtocolFromString "quic" = .QUIC ∧
    AlternateProtocolFromString "h2" = .NPN_HTTP_2 ∧
    AlternateProtocolFromString "npn-h2" = .NPN_HTTP_2 ∧
    AlternateProtocolFromString "npn-spdy/3.1" = .NPN_HTTP_2 ∧
    (AlternateProtocolFromString str = .UNINITIALIZED_ALTERNATE_PROTOCOL ↔
      str ∉ ["quic", "h2", "npn-h2", "npn-spdy/3.1"]) ∧
    AlternateProtocolFromString str =
      (if str = "quic" then .QUIC
        else if str ∈ ["h2", "npn-h2", "npn-spdy/3.1"] then .NPN_HTTP_2
        else .UNINITIALIZED_ALTERNATE_PROTOCOL) := by
  refine ⟨by decide, by decide, by decide, by decide, ?_, ?_⟩
  · unfold AlternateProtocolFromString
    by_cases h1 : str = "quic"
    · simp [h1]
    · by_cases h2 : str = "h2"
      · simp [h2]
      · by_cases h3 : str = "npn-h2"
        · simp [h3]
        · by_cases h4 : str = "npn-spdy/3.1"
          · simp [h4]
          · simp [h1, h2, h3, h4]
  · unfold AlternateProtocolFromString
    by_cases h1 : str = "quic"
    · simp [h1]
    · by_cases h2 : str = "h2"
      · simp [h2]
      · by_cases h3 : str = "npn-h2"
        · simp [h3]
        · by_cases h4 : str = "npn-spdy/3.1"
          · simp [h4]
          · simp [h1, h2, h3, h4]

end net

/-! # The snippets service: lemmas and claims -/

namespace ntp_snippets

open NTPSnippetsService

theorem CategoryMap_get_set_self (env : Environment) (categories : CategoryMap)
    (category : Category) (content : CategoryContent) :
    CategoryMap.get env (CategoryMap.set env categories category content) category = content := by
  unfold CategoryMap.get CategoryMap.set CategoryMap.find
  rw [lookup_assign_int, if_pos rfl]
  unfold CategoryMap.touch CategoryMap.find
  cases h : List.lookup category categories with
  | some c => simp [h]
  | none =>
    simp only []
    rw [lookup_append_int, h, lookup_cons_int]
    simp

theorem CategoryMap_get_set_other (env : Environment) (categories : CategoryMap)
    (category k : Category) (content : CategoryContent) (hk : k ≠ category) :
    CategoryMap.get env (CategoryMap.set env categories category content) k =
      CategoryMap.get env categories k := by
  unfold CategoryMap.get CategoryMap.set CategoryMap.find
  rw [lookup_assign_int, if_neg hk]
  unfold CategoryMap.touch CategoryMap.find
  cases h : List.lookup category categories with
  | some c => rfl
  | none =>
    simp only []
    rw [lookup_append_int, lookup_cons_int, if_neg hk]
    cases List.lookup k categories <;> rfl

theorem mem_setInsert (ids : List String) (x y : String) :
    y ∈ setInsert ids x ↔ y ∈ ids ∨ y = x := by
  unfold setInsert
  split
  · next h =>
    constructor
    · exact Or.inl
    · rintro (h' | h')
      · exact h'
      · rw [h']; simpa using h
  · simp

theorem mem_foldl_sources (sources : List SnippetSource) (init : List String) (y : String) :
    y ∈ sources.foldl (fun ids source => setInsert ids source.url) init ↔
      y ∈ init ∨ y ∈ sources.map SnippetSource.url := by
  induction sources generalizing init with
  | nil => simp
  | cons source sources ih =>
    rw [List.foldl_cons, ih, mem_setInsert]
    simp only [List.map_cons, List.mem_cons]
    tauto

theorem mem_foldl_GetAllIDs (snippets : List NTPSnippet) (init : List String) (y : String) :
    y ∈ snippets.foldl
        (fun ids snippet =>
          snippet.sources.foldl (fun ids source => setInsert ids source.url)
            (setInsert ids snippet.id))
        init ↔
      y ∈ init ∨ ∃ s ∈ snippets, y ∈ allIDs s := by
  induction snippets generalizing init with
  | nil => simp
  | cons snippet snippets ih =>
    rw [List.foldl_cons, ih, mem_foldl_sources, mem_setInsert]
    have hall : y ∈ allIDs snippet ↔ y = snippet.id ∨ y ∈ snippet.sources.map SnippetSource.url := by
      unfold allIDs; exact List.mem_cons
    constructor
    · rintro (((h | h) | h) | ⟨s, hs, hy⟩)
      · exact Or.inl h
      · exact Or.inr ⟨snippet, by simp, hall.2 (Or.inl h)⟩
      · exact Or.inr ⟨snippet, by simp, hall.2 (Or.inr h)⟩
      · exact Or.inr ⟨s, by simp [hs], hy⟩
    · rintro (h | ⟨s, hs, hy⟩)
      · exact Or.inl (Or.inl (Or.inl h))
      · rcases List.mem_cons.1 hs with rfl | hs'
        · rcases hall.1 hy with h | h
          · exact Or.inl (Or.inl (Or.inr h))
          · exact Or.inl (Or.inr h)
        · exact Or.inr ⟨s, hs', hy⟩

theorem mem_GetAllIDs (snippets : List NTPSnippet) (y : String) :
    y ∈ GetAllIDs snippets ↔ ∃ s ∈ snippets, y ∈ allIDs s := by
  unfold GetAllIDs
  rw [mem_foldl_GetAllIDs]
  simp

theorem IsSnippetInSet_all_iff (snippet : NTPSnippet) (ids : List String) :
    IsSnippetInSet snippet ids true = true ↔ ∃ x ∈ allIDs snippet, x ∈ ids := by
  unfold IsSnippetInSet allIDs
  by_cases h : ids.contains snippet.id = true
  · simp only [h, if_true, true_iff]
    exact ⟨snippet.id, by simp, by simpa using h⟩
  · have h' : snippet.id ∉ ids := by simpa using h
    simp only [h, Bool.false_eq_true, if_false, Bool.not_true, List.any_eq_true,
      List.mem_cons, List.mem_map]
    constructor
    · rintro ⟨source, hs, hc⟩
      exact ⟨source.url, Or.inr ⟨source, hs, rfl⟩, by simpa using hc⟩
    · rintro ⟨x, hx | ⟨source, hs, rfl⟩, hmem⟩
      · rw [hx] at hmem; exact absurd hmem h'
      · exact ⟨source, hs, by simpa using hmem⟩

theorem IsSnippetInSet_GetAllIDs (snippet : NTPSnippet) (dismissed : List NTPSnippet) :
    IsSnippetInSet snippet (GetAllIDs dismissed) true = true ↔
      MatchesDismissed snippet dismissed := by
  rw [IsSnippetInSet_all_iff]
  unfold MatchesDismissed
  constructor
  · rintro ⟨x, hx, hmem⟩
    obtain ⟨d, hd, hxd⟩ := (mem_GetAllIDs dismissed x).1 hmem
    exact ⟨d, hd, x, hx, hxd⟩
  · rintro ⟨d, hd, x, hx, hxd⟩
    exact ⟨x, hx, (mem_GetAllIDs dismissed x).2 ⟨d, hd, hxd⟩⟩

theorem allIDs_FillInDefaultDates (now : Time) (snippet : NTPSnippet) :
    allIDs (FillInDefaultDates now snippet) = allIDs snippet := by
  unfold FillInDefaultDates allIDs
  by_cases h1 : is_null snippet.publish_date = true <;>
    by_cases h2 : is_null snippet.expiry_date = true <;> simp [h1, h2]

theorem MatchesDismissed_FillInDefaultDates (now : Time) (snippet : NTPSnippet)
    (dismissed : List NTPSnippet) :
    MatchesDismissed (FillInDefaultDates now snippet) dismissed ↔
      MatchesDismissed snippet dismissed := by
  unfold MatchesDismissed
  rw [allIDs_FillInDefaultDates]

theorem UsableNewSnippets_subset (env : Environment) (now : Time) (content : CategoryContent)
    (new_snippets : List NTPSnippet) (c : NTPSnippet)
    (hc : c ∈ UsableNewSnippets env now content new_snippets) :
    ∃ f ∈ new_snippets, c = FillInDefaultDates now f ∧
      ¬ MatchesDismissed f content.dismissed ∧
      (env.add_incomplete_snippets = true ∨ env.is_complete c = true) := by
  unfold UsableNewSnippets at hc
  have hmap : ∀ c', c' ∈ (EraseMatchingSnippets new_snippets (GetAllIDs content.dismissed)
      true).map (FillInDefaultDates now) →
      ∃ f ∈ new_snippets, c' = FillInDefaultDates now f ∧
        ¬ MatchesDismissed f content.dismissed := by
    intro c' hc'
    obtain ⟨f, hf, rfl⟩ := List.mem_map.1 hc'
    unfold EraseMatchingSnippets at hf
    obtain ⟨hf1, hf2⟩ := List.mem_filter.1 hf
    refine ⟨f, hf1, rfl, ?_⟩
    intro hm
    rw [← IsSnippetInSet_GetAllIDs] at hm
    simp [hm] at hf2
  by_cases hsw : env.add_incomplete_snippets = true
  · simp only [hsw, Bool.not_true, Bool.false_eq_true, if_false] at hc
    obtain ⟨f, hf, h1, h2⟩ := hmap c hc
    exact ⟨f, hf, h1, h2, Or.inl hsw⟩
  · have hsw' : env.add_incomplete_snippets = false := by simpa using hsw
    simp only [hsw', Bool.not_false, if_true] at hc
    obtain ⟨hc1, hc2⟩ := List.mem_filter.1 hc
    obtain ⟨f, hf, h1, h2⟩ := hmap c hc1
    exact ⟨f, hf, h1, h2, Or.inr hc2⟩

theorem UsableNewSnippets_eq_nil (env : Environment) (now : Time) (content : CategoryContent)
    (new_snippets : List NTPSnippet)
    (h : ∀ f ∈ new_snippets, MatchesDismissed f content.dismissed ∨
      (env.add_incomplete_snippets = false ∧
        env.is_complete (FillInDefaultDates now f) = false)) :
    UsableNewSnippets env now content new_snippets = [] := by
  rw [List.eq_nil_iff_forall_not_mem]
  intro c hc
  obtain ⟨f, hf, rfl, hnm, hkeep⟩ := UsableNewSnippets_subset env now content new_snippets c hc
  rcases h f hf with hm | ⟨hsw, hinc⟩
  · exact hnm hm
  · rcases hkeep with hk | hk
    · rw [hsw] at hk; exact Bool.noConfusion hk
    · rw [hinc] at hk; exact Bool.noConfusion hk

theorem ReplaceSnippets_get (env : Environment) (now : Time) (service : NTPSnippetsService)
    (category : Category) (new_snippets : List NTPSnippet) :
    CategoryMap.get env (service.ReplaceSnippets env now category new_snippets).categories_
        category =
      ReplaceSnippetsInContent env now (CategoryMap.get env service.categories_ category)
        new_snippets := by
  unfold ReplaceSnippets
  exact CategoryMap_get_set_self env _ _ _

theorem DismissSuggestion_get (env : Environment) (service : NTPSnippetsService)
    (suggestion_id : String) (hready : service.ready = true) :
    CategoryMap.get env (service.DismissSuggestion env suggestion_id).categories_
        (env.GetCategoryFromUniqueID suggestion_id) =
      DismissSuggestionInContent
        (CategoryMap.get env service.categories_ (env.GetCategoryFromUniqueID suggestion_id))
        (env.GetWithinCategoryIDFromUniqueID suggestion_id) := by
  unfold DismissSuggestion
  simp only [hready, Bool.not_true, Bool.false_eq_true, if_false]
  exact CategoryMap_get_set_self env _ _ _

theorem DismissSuggestionInContent_absent (content : CategoryContent) (snippet_id : String)
    (h : ∀ s ∈ content.snippets, s.id ≠ snippet_id) :
    DismissSuggestionInContent content snippet_id = content := by
  unfold DismissSuggestionInContent
  have : content.snippets.find? (fun snippet => snippet.id == snippet_id) = none := by
    rw [List.find?_eq_none]
    intro s hs
    simpa using h s hs
  rw [this]

theorem DismissSuggestionInContent_present (content : CategoryContent) (snippet_id : String)
    (h : ∃ s ∈ content.snippets, s.id = snippet_id) :
    ∃ pre s post, content.snippets = pre ++ s :: post ∧ (∀ x ∈ pre, x.id ≠ snippet_id) ∧
      s.id = snippet_id ∧
      DismissSuggestionInContent content snippet_id =
        { content with
          dismissed := content.dismissed ++ [{ s with dismissed := true }]
          snippets := pre ++ post } := by
  obtain ⟨s0, hs0, hid0⟩ := h
  obtain ⟨s, pre, post, hpre, hs, hsplit, herase⟩ :=
    List.exists_of_eraseP (p := fun snippet : NTPSnippet => snippet.id == snippet_id) hs0
      (by simpa using hid0)
  have hfind : content.snippets.find? (fun snippet => snippet.id == snippet_id) = some s := by
    rw [hsplit, List.find?_append]
    have : pre.find? (fun snippet => snippet.id == snippet_id) = none := by
      rw [List.find?_eq_none]
      intro x hx
      exact hpre x hx
    rw [this]
    simp only [Option.none_or, List.find?_cons]
    rw [hs]
  refine ⟨pre, s, post, hsplit, ?_, by simpa using hs, ?_⟩
  · intro x hx
    simpa using hpre x hx
  · unfold DismissSuggestionInContent
    rw [hfind, herase]

/-- C14. `DismissSuggestion` on a ready service, for the category and the
snippet id that the suggestion id names: if no current snippet of the category
has the id, the current and the dismissed list of the category are unchanged;
otherwise the first current snippet with the id is removed from the current
list, whose length drops by one while the order of the others is kept, and is
appended to the dismissed list with its dismissed flag set.  The archived list
and every other category `k` are unchanged. -/
theorem DismissSuggestion_moves_one_snippet (env : Environment) (service : NTPSnippetsService)
    (suggestion_id : String) (k : Category) (hready : service.ready = true) :
    ((∀ s ∈ (CategoryMap.get env service.categories_
          (env.GetCategoryFromUniqueID suggestion_id)).snippets,
        s.id ≠ env.GetWithinCategoryIDFromUniqueID suggestion_id) →
      (CategoryMap.get env (service.DismissSuggestion env suggestion_id).categories_
          (env.GetCategoryFromUniqueID suggestion_id)).snippets =
        (CategoryMap.get env service.categories_
          (env.GetCategoryFromUniqueID suggestion_id)).snippets ∧
      (CategoryMap.get env (service.DismissSuggestion env suggestion_id).categories_
          (env.GetCategoryFromUniqueID suggestion_id)).dismissed =
        (CategoryMap.get env service.categories_
          (env.GetCategoryFromUniqueID suggestion_id)).dismissed) ∧
    ((∃ s ∈ (CategoryMap.get env service.categories_
          (env.GetCategoryFromUniqueID suggestion_id)).snippets,
        s.id = env.GetWithinCategoryIDFromUniqueID suggestion_id) →
      ∃ pre s post,
        (CategoryMap.get env service.categories_
          (env.GetCategoryFromUniqueID suggestion_id)).snippets = pre ++ s :: post ∧
        (∀ x ∈ pre, x.id ≠ env.GetWithinCategoryIDFromUniqueID suggestion_id) ∧
        s.id = env.GetWithinCategoryIDFromUniqueID suggestion_id ∧
        (CategoryMap.get env (service.DismissSuggestion env suggestion_id).categories_
          (env.GetCategoryFromUniqueID suggestion_id)).snippets = pre ++ post ∧
        (CategoryMap.get env (service.DismissSuggestion env suggestion_id).categories_
          (env.GetCategoryFromUniqueID suggestion_id)).snippets.length + 1 =
          (CategoryMap.get env service.categories_
            (env.GetCategoryFromUniqueID suggestion_id)).snippets.length ∧
        (CategoryMap.get env (service.DismissSuggestion env suggestion_id).categories_
          (env.GetCategoryFromUniqueID suggestion_id)).dismissed =
          (CategoryMap.get env service.categories_
            (env.GetCategoryFromUniqueID suggestion_id)).dismissed ++
            [{ s with dismissed := true }]) ∧
    (CategoryMap.get env (service.DismissSuggestion env suggestion_id).categories_
        (env.GetCategoryFromUniqueID suggestion_id)).archived =
      (CategoryMap.get env service.categories_
        (env.GetCategoryFromUniqueID suggestion_id)).archived ∧
    (k ≠ env.GetCategoryFromUniqueID suggestion_id →
      CategoryMap.get env (service.DismissSuggestion env suggestion_id).categories_ k =
        CategoryMap.get env service.categories_ k) := by
  rw [DismissSuggestion_get env service suggestion_id hready]
  refine ⟨?_, ?_, ?_, ?_⟩
  · intro h
    rw [DismissSuggestionInContent_absent _ _ h]
    exact ⟨rfl, rfl⟩
  · intro h
    obtain ⟨pre, s, post, hsplit, hpre, hs, heq⟩ := DismissSuggestionInContent_present _ _ h
    refine ⟨pre, s, post, hsplit, hpre, hs, ?_, ?_, ?_⟩
    · rw [heq]
    · rw [heq, hsplit]
      simp only [List.length_append, List.length_cons]
      omega
    · rw [heq]
  · unfold DismissSuggestionInContent
    split <;> rfl
  · intro hk
    unfold DismissSuggestion
    simp only [hready, Bool.not_true, Bool.false_eq_true, if_false]
    exact CategoryMap_get_set_other env _ _ _ _ hk

/-- Witness of C14 on the sample service after the fetch of two snippets:
dismissing an id that no current snippet has changes nothing, and dismissing
the first snippet leaves the second and puts the first, flagged, into the
dismissed list. -/
theorem DismissSuggestion_moves_one_snippet_witness :
    sample_service_fetched.ready = true ∧
    (∀ s ∈ (CategoryMap.get sample_env sample_service_fetched.categories_
          (sample_env.GetCategoryFromUniqueID "1|http://other.com")).snippets,
        s.id ≠ sample_env.GetWithinCategoryIDFromUniqueID "1|http://other.com") ∧
    (CategoryMap.get sample_env
        (sample_service_fetched.DismissSuggestion sample_env "1|http://other.com").categories_
        (sample_env.GetCategoryFromUniqueID "1|http://other.com")).snippets =
      (CategoryMap.get sample_env sample_service_fetched.categories_
        (sample_env.GetCategoryFromUniqueID "1|http://other.com")).snippets ∧
    (CategoryMap.get sample_env sample_service_fetched.categories_ 1).snippets =
      [sample_snippet "http://a.com" "http://shared.com",
        sample_snippet "http://b.com" "http://shared.com"] ∧
    (CategoryMap.get sample_env sample_service_dismissed.categories_ 1).snippets =
      [sample_snippet "http://b.com" "http://shared.com"] ∧
    (CategoryMap.get sample_env sample_service_dismissed.categories_ 1).dismissed =
      [{ sample_snippet "http://a.com" "http://shared.com" with dismissed := true }] :=
  ⟨by decide, by decide!,
    ((DismissSuggestion_moves_one_snippet sample_env sample_service_fetched
      "1|http://other.com" 1 (by decide)).1 (by decide!)).1,
    by decide!, by decide!, by decide!⟩

theorem ReplaceSnippetsInContent_dismissed (env : Environment) (now : Time)
    (content : CategoryContent) (new_snippets : List NTPSnippet) :
    (ReplaceSnippetsInContent env now content new_snippets).dismissed = content.dismissed := by
  unfold ReplaceSnippetsInContent
  by_cases h : (UsableNewSnippets env now content new_snippets).isEmpty = true
  · simp only [h, if_true]
  · simp only [h, Bool.false_eq_true, if_false]
    rfl

theorem ReplaceSnippetsInContent_snippets (env : Environment) (now : Time)
    (content : CategoryContent) (new_snippets : List NTPSnippet) :
    ReplaceSnippetsInContent env now content new_snippets = content ∨
      (ReplaceSnippetsInContent env now content new_snippets).snippets =
        UsableNewSnippets env now content new_snippets := by
  unfold ReplaceSnippetsInContent
  by_cases h : (UsableNewSnippets env now content new_snippets).isEmpty = true
  · left
    simp only [h, if_true]
  · right
    simp only [h, Bool.false_eq_true, if_false]

/-- C15, as stated, fails: on the sample service two snippets that share a
source URL were fetched and the first was dismissed; the second is then fetched
again.  It is a fetched snippet, a source URL of it equals a source URL of a
dismissed snippet, and it is among the current snippets after
`ReplaceSnippets`, which dropped it from the fetched list and, the list being
empty then, did not touch the current snippets. -/
theorem ReplaceSnippets_dismissed_match_counterexample :
    sample_snippet "http://b.com" "http://shared.com" ∈
      [sample_snippet "http://b.com" "http://shared.com"] ∧
    MatchesDismissed (sample_snippet "http://b.com" "http://shared.com")
      (CategoryMap.get sample_env sample_service_dismissed.categories_ 1).dismissed ∧
    sample_snippet "http://b.com" "http://shared.com" ∈
      (CategoryMap.get sample_env
        (sample_service_dismissed.ReplaceSnippets sample_env sample_now 1
          [sample_snippet "http://b.com" "http://shared.com"]).categories_ 1).snippets := by
  decide!

/-- C15, amended.  A dismissed snippet is never added by a fetch: a snippet
`f`, fetched or not, whose id or any source URL equals the id or a source URL
of a dismissed snippet is among the current snippets of the category after
`ReplaceSnippets` only if the call left the category as it was and `f` was a
current snippet before; every current snippet `c` after the call was a current
snippet before it or matches no dismissed snippet; the dismissed list is
unchanged. -/
theorem ReplaceSnippets_adds_no_dismissed (env : Environment) (now : Time)
    (service : NTPSnippetsService) (category : Category) (new_snippets : List NTPSnippet)
    (f c : NTPSnippet)
    (hm : MatchesDismissed f (CategoryMap.get env service.categories_ category).dismissed) :
    (f ∈ (CategoryMap.get env
        (service.ReplaceSnippets env now category new_snippets).categories_ category).snippets →
      CategoryMap.get env
          (service.ReplaceSnippets env now category new_snippets).categories_ category =
        CategoryMap.get env service.categories_ category ∧
      f ∈ (CategoryMap.get env service.categories_ category).snippets) ∧
    (c ∈ (CategoryMap.get env
        (service.ReplaceSnippets env now category new_snippets).categories_ category).snippets →
      c ∈ (CategoryMap.get env service.categories_ category).snippets ∨
      ¬ MatchesDismissed c (CategoryMap.get env service.categories_ category).dismissed) ∧
    (CategoryMap.get env
        (service.ReplaceSnippets env now category new_snippets).categories_ category).dismissed =
      (CategoryMap.get env service.categories_ category).dismissed := by
  rw [ReplaceSnippets_get]
  have hnew : ∀ x ∈ UsableNewSnippets env now (CategoryMap.get env service.categories_ category)
      new_snippets,
      ¬ MatchesDismissed x (CategoryMap.get env service.categories_ category).dismissed := by
    intro x hx
    obtain ⟨g, _, rfl, hg, _⟩ := UsableNewSnippets_subset env now _ new_snippets x hx
    rw [MatchesDismissed_FillInDefaultDates]
    exact hg
  refine ⟨?_, ?_, ReplaceSnippetsInContent_dismissed env now _ new_snippets⟩
  · intro hin
    rcases ReplaceSnippetsInContent_snippets env now
      (CategoryMap.get env service.categories_ category) new_snippets with h | h
    · rw [h] at hin
      exact ⟨h, hin⟩
    · rw [h] at hin
      exact absurd hm (hnew f hin)
  · intro hin
    rcases ReplaceSnippetsInContent_snippets env now
      (CategoryMap.get env service.categories_ category) new_snippets with h | h
    · rw [h] at hin
      exact Or.inl hin
    · rw [h] at hin
      exact Or.inr (hnew c hin)

/-- Witness of amended C15 on the sample service after the dismissal: the
second snippet, which shares a source URL with the dismissed one, is fetched
again; it is current afterwards because it was current before and the category
is as it was. -/
theorem ReplaceSnippets_adds_no_dismissed_witness :
    sample_snippet "http://b.com" "http://shared.com" ∈
      [sample_snippet "http://b.com" "http://shared.com"] ∧
    MatchesDismissed (sample_snippet "http://b.com" "http://shared.com")
      (CategoryMap.get sample_env sample_service_dismissed.categories_ 1).dismissed ∧
    CategoryMap.get sample_env
        (sample_service_dismissed.ReplaceSnippets sample_env sample_now 1
          [sample_snippet "http://b.com" "http://shared.com"]).categories_ 1 =
      CategoryMap.get sample_env sample_service_dismissed.categories_ 1 ∧
    sample_snippet "http://b.com" "http://shared.com" ∈
      (CategoryMap.get sample_env sample_service_dismissed.categories_ 1).snippets :=
  ⟨by decide!, by decide!,
    (ReplaceSnippets_adds_no_dismissed sample_env sample_now sample_service_dismissed 1
      [sample_snippet "http://b.com" "http://shared.com"]
      (sample_snippet "http://b.com" "http://shared.com")
      (sample_snippet "http://b.com" "http://shared.com") (by decide!)).1
      (by decide!)⟩

/-- C16. A fetch that yields nothing usable does not change the existing
snippets: when every fetched snippet is dropped, because it matches a dismissed
snippet or because, the switch `kAddIncompleteSnippets` not being set, it is
incomplete once the default dates are filled in (or when the fetched list is
empty), `ReplaceSnippets` leaves the content of the category, so its current
list and its archived list, exactly as it was, and every category `k` as
well. -/
theorem ReplaceSnippets_nothing_usable (env : Environment) (now : Time)
    (service : NTPSnippetsService) (category k : Category) (new_snippets : List NTPSnippet)
    (h : ∀ f ∈ new_snippets,
      MatchesDismissed f (CategoryMap.get env service.categories_ category).dismissed ∨
      (env.add_incomplete_snippets = false ∧
        env.is_complete (FillInDefaultDates now f) = false)) :
    (CategoryMap.get env
        (service.ReplaceSnippets env now category new_snippets).categories_ category).snippets =
      (CategoryMap.get env service.categories_ category).snippets ∧
    (CategoryMap.get env
        (service.ReplaceSnippets env now category new_snippets).categories_ category).archived =
      (CategoryMap.get env service.categories_ category).archived ∧
    CategoryMap.get env (service.ReplaceSnippets env now category new_snippets).categories_ k =
      CategoryMap.get env service.categories_ k := by
  have hcontent : ReplaceSnippetsInContent env now
      (CategoryMap.get env service.categories_ category) new_snippets =
      CategoryMap.get env service.categories_ category := by
    unfold ReplaceSnippetsInContent
    rw [UsableNewSnippets_eq_nil env now _ new_snippets h]
    rfl
  have hget := ReplaceSnippets_get env now service category new_snippets
  rw [hcontent] at hget
  refine ⟨by rw [hget], by rw [hget], ?_⟩
  by_cases hk : k = category
  · rw [hk]; exact hget
  · unfold ReplaceSnippets
    exact CategoryMap_get_set_other env _ _ _ _ hk

/-- Witness of C16 on the sample service after the fetch of two snippets: a
fetch of one incomplete snippet, as in the test case
`LoadIncompleteJsonWithExistingSnippets`, leaves the two current snippets. -/
theorem ReplaceSnippets_nothing_usable_witness :
    (∀ f ∈ [sample_incomplete_snippet],
      MatchesDismissed f (CategoryMap.get sample_env sample_service_fetched.categories_ 1).dismissed ∨
      (sample_env.add_incomplete_snippets = false ∧
        sample_env.is_complete (FillInDefaultDates sample_now f) = false)) ∧
    (CategoryMap.get sample_env
        (sample_service_fetched.ReplaceSnippets sample_env sample_now 1
          [sample_incomplete_snippet]).categories_ 1).snippets =
      (CategoryMap.get sample_env sample_service_fetched.categories_ 1).snippets ∧
    (CategoryMap.get sample_env sample_service_fetched.categories_ 1).snippets.length = 2 :=
  ⟨by decide!,
    (ReplaceSnippets_nothing_usable sample_env sample_now sample_service_fetched 1 1
      [sample_incomplete_snippet] (by decide!)).1,
    by decide!⟩

theorem CategoryMap_get_map (env : Environment) (categories : CategoryMap)
    (h : CategoryContent → CategoryContent) (k : Category) :
    CategoryMap.get env (categories.map (fun item => (item.1, h item.2))) k =
      match categories.find k with
      | some content => h content
      | none => env.CategoryContent_default := by
  unfold CategoryMap.get CategoryMap.find
  induction categories with
  | nil => rfl
  | cons p m ih =>
    rw [List.map_cons, lookup_cons_int, lookup_cons_int]
    by_cases hk : k = p.1
    · simp [hk]
    · simp only [hk, if_false]
      exact ih

theorem CategoryMap_get_foldl_erase (env : Environment) (keys : List Category)
    (categories : CategoryMap) (k : Category) (hk : k ∉ keys) :
    CategoryMap.get env (keys.foldl CategoryMap.erase categories) k =
      CategoryMap.get env categories k := by
  induction keys generalizing categories with
  | nil => rfl
  | cons key keys ih =>
    rw [List.foldl_cons, ih _ (fun hmem => hk (List.mem_cons_of_mem _ hmem))]
    have hne : k ≠ key := fun e => hk (by rw [e]; exact List.mem_cons_self _ _)
    unfold CategoryMap.get CategoryMap.erase CategoryMap.find
    rw [lookup_filter_ne_int, if_neg hne]

theorem CategoryMap_get_map_dismissed (env : Environment) (categories : CategoryMap)
    (h : CategoryContent → CategoryContent) (k : Category) (f : List NTPSnippet → List NTPSnippet)
    (hf : f [] = []) (hh : ∀ content, (h content).dismissed = f content.dismissed) :
    (CategoryMap.get env (categories.map (fun item => (item.1, h item.2))) k).dismissed =
      f (CategoryMap.get env categories k).dismissed := by
  rw [CategoryMap_get_map]
  unfold CategoryMap.get
  cases categories.find k with
  | none => exact hf.symm
  | some content => exact hh content

theorem CategoryMap_get_map_snippets (env : Environment) (categories : CategoryMap)
    (h : CategoryContent → CategoryContent) (k : Category)
    (hh : ∀ content, (h content).snippets = content.snippets) :
    (CategoryMap.get env (categories.map (fun item => (item.1, h item.2))) k).snippets =
      (CategoryMap.get env categories k).snippets := by
  rw [CategoryMap_get_map]
  unfold CategoryMap.get
  cases categories.find k with
  | none => rfl
  | some content => exact hh content

theorem OnFetchFinished_ready (env : Environment) (now : Time) (service : NTPSnippetsService)
    (fetched : List FetchedCategory) (hready : service.ready = true) :
    service.OnFetchFinished env now (some fetched) =
      MarkAllAvailable
        (fetched.foldl (OnFetchFinishedStep env now)
          (ClearExpiredDismissedSnippets now (ClearProvidedByServer service))) := by
  unfold OnFetchFinished
  simp only [hready, Bool.not_true, Bool.false_eq_true, if_false]
  rfl

theorem ClearExpiredDismissedSnippets_articles (env : Environment) (now : Time)
    (service : NTPSnippetsService) :
    (CategoryMap.get env (ClearExpiredDismissedSnippets now service).categories_
        service.articles_category_).dismissed =
      unexpired now (CategoryMap.get env service.categories_ service.articles_category_).dismissed := by
  have hnot : service.articles_category_ ∉
      ((service.categories_.map (fun item =>
          (item.1,
            { item.2 with
              dismissed :=
                item.2.dismissed.filter
                  (fun snippet => !decide (snippet.expiry_date ≤ now)) }))).filter
        (fun item =>
          item.2.snippets.isEmpty && item.2.dismissed.isEmpty &&
            decide (item.1 ≠ service.articles_category_) &&
            !item.2.provided_by_server)).map Prod.fst := by
    intro hmem
    obtain ⟨item, hitem, hfst⟩ := List.mem_map.1 hmem
    have hcond := (List.mem_filter.1 hitem).2
    simp only [Bool.and_eq_true, decide_eq_true_eq] at hcond
    exact hcond.1.2 hfst
  show (CategoryMap.get env (List.foldl CategoryMap.erase _ _) _).dismissed = _
  rw [CategoryMap_get_foldl_erase env _ _ _ hnot]
  exact CategoryMap_get_map_dismissed env service.categories_
    (fun content =>
      { content with
        dismissed :=
          content.dismissed.filter (fun snippet => !decide (snippet.expiry_date ≤ now)) })
    service.articles_category_ (unexpired now) rfl (fun _ => rfl)

theorem ClearProvidedByServer_get_dismissed (env : Environment) (service : NTPSnippetsService)
    (k : Category) :
    (CategoryMap.get env (ClearProvidedByServer service).categories_ k).dismissed =
      (CategoryMap.get env service.categories_ k).dismissed :=
  CategoryMap_get_map_dismissed env service.categories_
    (fun content => { content with provided_by_server := false }) k id rfl (fun _ => rfl)

theorem MarkAllAvailable_get_dismissed (env : Environment) (service : NTPSnippetsService)
    (k : Category) :
    (CategoryMap.get env (MarkAllAvailable service).categories_ k).dismissed =
      (CategoryMap.get env service.categories_ k).dismissed :=
  CategoryMap_get_map_dismissed env service.categories_
    (fun content => { content with status := CategoryStatus.AVAILABLE }) k id rfl (fun _ => rfl)

theorem MarkAllAvailable_get_snippets (env : Environment) (service : NTPSnippetsService)
    (k : Category) :
    (CategoryMap.get env (MarkAllAvailable service).categories_ k).snippets =
      (CategoryMap.get env service.categories_ k).snippets :=
  CategoryMap_get_map_snippets env service.categories_
    (fun content => { content with status := CategoryStatus.AVAILABLE }) k (fun _ => rfl)

theorem OnFetchFinishedStep_articles (env : Environment) (now : Time)
    (service : NTPSnippetsService) (localized_title : String) (snippets : List NTPSnippet) :
    CategoryMap.get env
        (OnFetchFinishedStep env now service
          { category := service.articles_category_, localized_title := localized_title,
            snippets := snippets }).categories_ service.articles_category_ =
      ReplaceSnippetsInContent env now
        { CategoryMap.get env service.categories_ service.articles_category_ with
          provided_by_server := true } snippets := by
  unfold OnFetchFinishedStep
  simp only [ne_eq, not_true_eq_false, if_false]
  rw [ReplaceSnippets_get, CategoryMap_get_set_self]

theorem ReplaceSnippetsInContent_snippets_of_usable (env : Environment) (now : Time)
    (content : CategoryContent) (new_snippets : List NTPSnippet)
    (h : (UsableNewSnippets env now content new_snippets).isEmpty = false) :
    (ReplaceSnippetsInContent env now content new_snippets).snippets =
      UsableNewSnippets env now content new_snippets := by
  unfold ReplaceSnippetsInContent
  simp only [h, Bool.false_eq_true, if_false]

theorem UsableNewSnippets_single (env : Environment) (now : Time) (content : CategoryContent)
    (s : NTPSnippet)
    (hcomplete : env.add_incomplete_snippets = true ∨
      env.is_complete (FillInDefaultDates now s) = true)
    (hnomatch : ¬ MatchesDismissed s content.dismissed) :
    UsableNewSnippets env now content [s] = [FillInDefaultDates now s] := by
  have hin : IsSnippetInSet s (GetAllIDs content.dismissed) true = false := by
    cases h : IsSnippetInSet s (GetAllIDs content.dismissed) true with
    | false => rfl
    | true => exact absurd ((IsSnippetInSet_GetAllIDs s content.dismissed).1 h) hnomatch
  unfold UsableNewSnippets EraseMatchingSnippets
  simp only [List.filter_cons, hin, Bool.not_false, if_true, List.filter_nil, List.map_cons,
    List.map_nil]
  rcases hcomplete with h | h
  · simp [h]
  · by_cases hsw : env.add_incomplete_snippets = true
    · simp [hsw]
    · simp [hsw, h]

/-- C17, amended.  Only expired dismissed content is removed on load: on a
ready service `OnFetchFinished` removes from the dismissed list of the articles
category the snippets whose expiry time is not later than the current time and
keeps the others.  The expiry time of a fetched snippet is not examined: after
loading a fetch result that contains only one snippet `s` for the articles
category, which is complete once the default dates are filled in (or the switch
`kAddIncompleteSnippets` is set) and matches no dismissed snippet that has not
expired, the current snippets of the articles category are that snippet alone,
whatever its expiry time. -/
theorem OnFetchFinished_expires_dismissed_only (env : Environment) (now : Time)
    (service : NTPSnippetsService) (localized_title : String) (s : NTPSnippet)
    (hready : service.ready = true)
    (hcomplete : env.add_incomplete_snippets = true ∨
      env.is_complete (FillInDefaultDates now s) = true)
    (hnomatch : ¬ MatchesDismissed s
      (unexpired now
        (CategoryMap.get env service.categories_ service.articles_category_).dismissed)) :
    (CategoryMap.get env
        (service.OnFetchFinished env now
          (some [{ category := service.articles_category_, localized_title := localized_title,
                   snippets := [s] }])).categories_ service.articles_category_).snippets =
      [FillInDefaultDates now s] ∧
    (CategoryMap.get env
        (service.OnFetchFinished env now
          (some [{ category := service.articles_category_, localized_title := localized_title,
                   snippets := [s] }])).categories_ service.articles_category_).dismissed =
      unexpired now
        (CategoryMap.get env service.categories_ service.articles_category_).dismissed := by
  rw [OnFetchFinished_ready env now service _ hready]
  simp only [List.foldl_cons, List.foldl_nil]
  have harticles : (ClearExpiredDismissedSnippets now
      (ClearProvidedByServer service)).articles_category_ = service.articles_category_ := rfl
  have hstep := OnFetchFinishedStep_articles env now
    (ClearExpiredDismissedSnippets now (ClearProvidedByServer service)) localized_title [s]
  rw [harticles] at hstep
  have hdismissed :
      (CategoryMap.get env
        (ClearExpiredDismissedSnippets now (ClearProvidedByServer service)).categories_
        service.articles_category_).dismissed =
      unexpired now
        (CategoryMap.get env service.categories_ service.articles_category_).dismissed := by
    have h1 := ClearExpiredDismissedSnippets_articles env now (ClearProvidedByServer service)
    have h2 := ClearProvidedByServer_get_dismissed env service service.articles_category_
    change (CategoryMap.get env
        (ClearExpiredDismissedSnippets now (ClearProvidedByServer service)).categories_
        service.articles_category_).dismissed =
      unexpired now (CategoryMap.get env (ClearProvidedByServer service).categories_
        service.articles_category_).dismissed at h1
    rw [h1, h2]
  have husable := UsableNewSnippets_single env now
    { CategoryMap.get env
        (ClearExpiredDismissedSnippets now (ClearProvidedByServer service)).categories_
        service.articles_category_ with provided_by_server := true } s hcomplete
    (by rw [show ({ CategoryMap.get env
          (ClearExpiredDismissedSnippets now (ClearProvidedByServer service)).categories_
          service.articles_category_ with provided_by_server := true } :
          CategoryContent).dismissed = _ from hdismissed]
        exact hnomatch)
  constructor
  · rw [MarkAllAvailable_get_snippets, hstep]
    rw [ReplaceSnippetsInContent_snippets_of_usable env now _ [s] (by rw [husable]; rfl),
      husable]
  · rw [MarkAllAvailable_get_dismissed, hstep, ReplaceSnippetsInContent_dismissed]
    exact hdismissed

/-- Witness of amended C17 on the sample service: the snippet of
`GetTestExpiredJson()`, whose expiry time is the current time, is complete and
matches no dismissed snippet; after `OnFetchFinished` it is the one current
snippet of the articles category. -/
theorem OnFetchFinished_expires_dismissed_only_witness :
    sample_service.ready = true ∧
    (sample_env.add_incomplete_snippets = true ∨
      sample_env.is_complete (FillInDefaultDates sample_now sample_expired_snippet) = true) ∧
    ¬ MatchesDismissed sample_expired_snippet
      (unexpired sample_now
        (CategoryMap.get sample_env sample_service.categories_
          sample_service.articles_category_).dismissed) ∧
    sample_expired_snippet.expiry_date ≤ sample_now ∧
    (CategoryMap.get sample_env
        (sample_service.OnFetchFinished sample_env sample_now
          (some [{ category := sample_service.articles_category_, localized_title := "Articles",
                   snippets := [sample_expired_snippet] }])).categories_
        sample_service.articles_category_).snippets =
      [FillInDefaultDates sample_now sample_expired_snippet] :=
  ⟨by decide, Or.inr (by decide!), by decide!, by decide,
    (OnFetchFinished_expires_dismissed_only sample_env sample_now sample_service "Articles"
      sample_expired_snippet (by decide) (Or.inr (by decide!)) (by decide!)).1⟩

end ntp_snippets
